import Mathlib

/-!
# Stackube: the Open vSwitch interface provisioner and the tenant/network reconciler

A shallow embedding of `pkg/kubestack/plugins/openvswitch/openvswitch.go`, followed
by a model of the reconciler that `rbac_controller_test.go` exercises.

* A Go `string` is a finite sequence of bytes; `len` and the slice expression
  `s[a:b]` count bytes.  The embedding therefore represents a Go string as the
  list of its bytes (`GoString`), and "character" always means one byte.
* A run-time panic (slice bound or index out of range) is an explicit outcome.
* `util.RunCommand` is not part of the translated sources.  It is the only way
  in which the provisioner touches the operating system, so the embedding takes
  it as a parameter: an environment that, given the commands issued so far and
  the command issued now, answers with output lines and an optional error.
  Every function threads the list of commands issued so far (the trace).
* `glog` calls only write log lines and are left out.
-/

namespace Stackube

/-- A Go string: its bytes, in order. -/
abbrev GoString := List UInt8

/-- The bytes of a string literal of the source (UTF-8, as the Go compiler stores it). -/
def goStr (s : String) : GoString := s.toUTF8.data.toList

instance : Coe String GoString := ⟨goStr⟩

/-- A Go `error` value that is not nil. -/
structure GoError where
  msg : GoString
deriving DecidableEq

/-- The fields of `ports.Port` that the provisioner reads. -/
structure Port where
  ID : GoString
  MACAddress : GoString
deriving DecidableEq

/-- The fields of `current.Interface` that the provisioner writes; a field that
is not set holds the empty string. -/
structure Interface where
  Name : GoString
  Mac : GoString := []
deriving DecidableEq

/-- The plugin object `OVSPlugin`. -/
structure OVSPlugin where
  IntegrationBridge : GoString
deriving DecidableEq

/-- One external command: the program name followed by its arguments. -/
abbrev Cmd := List GoString

/-- What `util.RunCommand` hands back: the output lines and the error (nil = `none`). -/
structure CmdResult where
  out : List GoString
  err : Option GoError
deriving DecidableEq

/-- The operating system as seen through `util.RunCommand`: the answer to a
command may depend on every command issued before it. -/
abbrev Env := List Cmd → Cmd → CmdResult

/-- How a call ends: it returns a value or it panics. -/
inductive Outcome (α : Type) where
  | ret : α → Outcome α
  | panic : Outcome α
deriving DecidableEq

/-- A computation that issues external commands: from the environment and the
trace so far to an outcome and the extended trace. -/
def Exec (α : Type) : Type := Env → List Cmd → Outcome α × List Cmd

/-- Sequencing of computations; a panic ends the computation where it occurs. -/
def Exec.bind {α β : Type} (m : Exec α) (f : α → Exec β) : Exec β :=
  fun env tr =>
    match m env tr with
    | (Outcome.ret a, tr1) => f a env tr1
    | (Outcome.panic, tr1) => (Outcome.panic, tr1)

/-- A computation that returns without issuing a command. -/
def Exec.pure {α : Type} (a : α) : Exec α := fun _ tr => (Outcome.ret a, tr)

instance : Monad Exec where
  pure := Exec.pure
  bind := Exec.bind

/-- A pure Go expression that may panic, used inside a computation. -/
def liftOpt {α : Type} (o : Option α) : Exec α :=
  fun _ tr =>
    match o with
    | some a => (Outcome.ret a, tr)
    | none => (Outcome.panic, tr)

/-- The call `util.RunCommand(cmd, args...)`: the command is appended to the trace
and the environment supplies output and error. -/
def RunCommand (cmd : GoString) (args : List GoString) : Exec CmdResult :=
  fun env tr => (Outcome.ret (env tr (cmd :: args)), tr ++ [cmd :: args])

/-- The Go slice expression `s[:hi]` on a string; out of range is a panic (`none`). -/
def sliceTo (s : GoString) (hi : Nat) : Option GoString :=
  if hi ≤ s.length then some (s.take hi) else none

/-- The Go slice expression `s[lo:hi]` on a string; out of range is a panic (`none`). -/
def slice (s : GoString) (lo hi : Nat) : Option GoString :=
  if lo ≤ hi ∧ hi ≤ s.length then some ((s.take hi).drop lo) else none

/-- The Go index expression `xs[i]` on a slice; out of range is a panic (`none`). -/
def index {α : Type} (xs : List α) (i : Nat) : Option α := xs.get? i

/-- The function `strings.TrimRight` for a cutset of one ASCII byte. -/
def trimRightByte (s : GoString) (c : UInt8) : GoString :=
  (s.reverse.dropWhile (fun b => b == c)).reverse

/-- The function `strings.TrimLeft` for a cutset of one ASCII byte. -/
def trimLeftByte (s : GoString) (c : UInt8) : GoString :=
  s.dropWhile (fun b => b == c)

/-- The function `strings.Trim(s, cutset)` for a cutset of one ASCII byte, as the
Go library computes it: all leading and trailing occurrences of the byte go. -/
def Trim (s : GoString) (c : UInt8) : GoString :=
  trimLeftByte (trimRightByte s c) c

/-- The apostrophe, the cutset of both `strings.Trim` calls. -/
def apostrophe : UInt8 := 39

/-- `Init`: stores the integration bridge in the plugin and returns nil. -/
def Init (p : OVSPlugin) (integrationBridge : GoString) : OVSPlugin × Option GoError :=
  ({ p with IntegrationBridge := integrationBridge }, none)

/-- `buildBridgeName`: `("qbr" + portID)[:14]`; the receiver is not read. -/
def buildBridgeName (_p : OVSPlugin) (portID : GoString) : Option GoString :=
  sliceTo (goStr "qbr" ++ portID) 14

/-- `buildTapName`: `("tap" + portID)[:14], ("vif" + portID)[:14]`. -/
def buildTapName (_p : OVSPlugin) (portID : GoString) : Option (GoString × GoString) := do
  let tap ← sliceTo (goStr "tap" ++ portID) 14
  let vif ← sliceTo (goStr "vif" ++ portID) 14
  return (tap, vif)

/-- `buildVethName`: `("qvb" + portID)[:14], ("qvo" + portID)[:14]`. -/
def buildVethName (_p : OVSPlugin) (portID : GoString) : Option (GoString × GoString) := do
  let qvb ← sliceTo (goStr "qvb" ++ portID) 14
  let qvo ← sliceTo (goStr "qvo" ++ portID) 14
  return (qvb, qvo)

/-- `destroyOVSInterface`: five commands, each error only logged. -/
def destroyOVSInterface (p : OVSPlugin) (_podName portID : GoString) : Exec (Option GoError) := do
  let (_, qvo) ← liftOpt (buildVethName p portID)
  let bridge ← liftOpt (buildBridgeName p portID)
  let _ ← RunCommand "ovs-vsctl" ["-vconsole:off", "--if-exists", "del-port", qvo]
  let _ ← RunCommand "ip" ["link", "set", "dev", qvo, "down"]
  let _ ← RunCommand "ip" ["link", "delete", "dev", qvo]
  let _ ← RunCommand "ip" ["link", "set", "dev", bridge, "down"]
  let _ ← RunCommand "brctl" ["delbr", bridge]
  return none

/-- `destroySandboxInterface`: delete the tap, look the sandbox process up and,
when the lookup printed something, remove the namespace symlink. -/
def destroySandboxInterface (p : OVSPlugin) (_podName podInfraContainerID portID : GoString) :
    Exec (Option GoError) := do
  let (tapName, _) ← liftOpt (buildTapName p portID)
  let _ ← RunCommand "ip" ["link", "delete", tapName]
  let r ← RunCommand "docker" ["inspect", "-f", "\x27\x7b\x7b.State.Pid\x7d\x7d\x27", podInfraContainerID]
  let pid := r.out
  if 0 < pid.length then
    let first ← liftOpt (index pid 0)
    let netns := Trim first apostrophe
    let _ ← RunCommand "rm" ["-f", goStr "/var/run/netns/" ++ netns]
    return none
  else
    return none

/-- `DestroyInterface`: both teardown halves, then nil. -/
def DestroyInterface (p : OVSPlugin) (podName podInfraContainerID : GoString) (port : Port) :
    Exec (Option GoError) := do
  let _ ← destroyOVSInterface p podName port.ID
  let _ ← destroySandboxInterface p podName podInfraContainerID port.ID
  return none

/-- `SetupSandboxInterface` (Phase B): every command whose error is not nil ends
the call after a full `DestroyInterface`; the last `rm` is only logged. -/
def SetupSandboxInterface (p : OVSPlugin) (podName podInfraContainerID : GoString) (port : Port)
    (ipcidr gateway ifName : GoString) : Exec (Option Interface × Option GoError) := do
  let (tapName, vifName) ← liftOpt (buildTapName p port.ID)
  let r ← RunCommand "ip" ["link", "add", tapName, "type", "veth", "peer", "name", vifName]
  if let some err := r.err then
    let _ ← DestroyInterface p podName podInfraContainerID port
    return (none, some err)

  let bridge ← liftOpt (buildBridgeName p port.ID)
  let r ← RunCommand "brctl" ["addif", bridge, tapName]
  if let some err := r.err then
    let _ ← DestroyInterface p podName podInfraContainerID port
    return (none, some err)

  let r ← RunCommand "ip" ["link", "set", "dev", vifName, "address", port.MACAddress]
  if let some err := r.err then
    let _ ← DestroyInterface p podName podInfraContainerID port
    return (none, some err)

  let r ← RunCommand "docker" ["inspect", "-f", "\x27\x7b\x7b.State.Pid\x7d\x7d\x27", podInfraContainerID]
  let pid := r.out
  if let some err := r.err then
    let _ ← DestroyInterface p podName podInfraContainerID port
    return (none, some err)

  let first ← liftOpt (index pid 0)
  let netns := Trim first apostrophe
  let r ← RunCommand "ln" ["-s", goStr "/proc/" ++ netns ++ goStr "/ns/net",
    goStr "/var/run/netns/" ++ netns]
  if let some err := r.err then
    let _ ← DestroyInterface p podName podInfraContainerID port
    return (none, some err)

  let r ← RunCommand "ip" ["link", "set", vifName, "netns", netns]
  if let some err := r.err then
    let _ ← DestroyInterface p podName podInfraContainerID port
    return (none, some err)

  let r ← RunCommand "ip" ["netns", "exec", netns, "ip", "link", "set", vifName, "down"]
  if let some err := r.err then
    let _ ← DestroyInterface p podName podInfraContainerID port
    return (none, some err)

  let r ← RunCommand "ip" ["netns", "exec", netns, "ip", "link", "set", vifName, "name", ifName]
  if let some err := r.err then
    let _ ← DestroyInterface p podName podInfraContainerID port
    return (none, some err)

  let r ← RunCommand "ip" ["netns", "exec", netns, "ip", "link", "set", ifName, "up"]
  if let some err := r.err then
    let _ ← DestroyInterface p podName podInfraContainerID port
    return (none, some err)

  let r ← RunCommand "ip" ["netns", "exec", netns, "ip", "addr", "add", "dev", ifName, ipcidr]
  if let some err := r.err then
    let _ ← DestroyInterface p podName podInfraContainerID port
    return (none, some err)

  let r ← RunCommand "ip" ["netns", "exec", netns, "ip", "route", "add", "default", "via", gateway]
  if let some err := r.err then
    let _ ← DestroyInterface p podName podInfraContainerID port
    return (none, some err)

  let r ← RunCommand "ip" ["link", "set", "dev", tapName, "up"]
  if let some err := r.err then
    let _ ← DestroyInterface p podName podInfraContainerID port
    return (none, some err)

  let _ ← RunCommand "rm" ["-f", goStr "/var/run/netns/" ++ netns]

  return (some { Name := ifName }, none)

/-- `SetupOVSInterface` (Phase A): every command whose error is not nil ends the
call after a full `DestroyInterface`; the bridge MAC is bytes 15..32 of the
second output line of `ip link show`. -/
def SetupOVSInterface (p : OVSPlugin) (podName podInfraContainerID : GoString) (port : Port) :
    Exec (Option Interface × Option GoError) := do
  let (qvb, qvo) ← liftOpt (buildVethName p port.ID)
  let r ← RunCommand "ip" ["link", "add", qvb, "type", "veth", "peer", "name", qvo]
  if let some err := r.err then
    let _ ← DestroyInterface p podName podInfraContainerID port
    return (none, some err)

  let bridge ← liftOpt (buildBridgeName p port.ID)
  let r ← RunCommand "brctl" ["addbr", bridge]
  if let some err := r.err then
    let _ ← DestroyInterface p podName podInfraContainerID port
    return (none, some err)

  let r ← RunCommand "ip" ["link", "set", qvb, "up"]
  if let some err := r.err then
    let _ ← DestroyInterface p podName podInfraContainerID port
    return (none, some err)

  let r ← RunCommand "ip" ["link", "set", qvo, "up"]
  if let some err := r.err then
    let _ ← DestroyInterface p podName podInfraContainerID port
    return (none, some err)

  let r ← RunCommand "ip" ["link", "set", bridge, "up"]
  if let some err := r.err then
    let _ ← DestroyInterface p podName podInfraContainerID port
    return (none, some err)

  let r ← RunCommand "brctl" ["addif", bridge, qvb]
  if let some err := r.err then
    let _ ← DestroyInterface p podName podInfraContainerID port
    return (none, some err)

  let r ← RunCommand "ovs-vsctl" ["-vconsole:off", "--", "--if-exists", "del-port",
    qvo, "--", "add-port", p.IntegrationBridge, qvo, "--", "set", "Interface", qvo,
    goStr "external_ids:attached-mac=" ++ port.MACAddress,
    goStr "external_ids:iface-id=" ++ port.ID,
    goStr "external_ids:vm-id=" ++ podName,
    "external_ids:iface-status=active"]
  if let some err := r.err then
    let _ ← DestroyInterface p podName podInfraContainerID port
    return (none, some err)

  let r ← RunCommand "ip" ["link", "show", bridge]
  let ret := r.out
  if let some err := r.err then
    let _ ← DestroyInterface p podName podInfraContainerID port
    return (none, some err)

  let line ← liftOpt (index ret 1)
  let mac ← liftOpt (slice line 15 32)
  return (some { Name := bridge, Mac := mac }, none)

/-- `SetupInterface`: Phase A, then Phase B; an error of either phase is
returned with both descriptors nil. -/
def SetupInterface (p : OVSPlugin) (podName podInfraContainerID : GoString) (port : Port)
    (ipcidr gateway ifName : GoString) :
    Exec (Option Interface × Option Interface × Option GoError) := do
  let (brInterface, err) ← SetupOVSInterface p podName podInfraContainerID port
  if let some e := err then
    return (none, none, some e)

  let (conInterface, err) ← SetupSandboxInterface p podName podInfraContainerID port ipcidr gateway ifName
  if let some e := err then
    return (none, none, some e)

  return (brInterface, conInterface, none)

/-! ## The command sequences the provisioner is expected to issue

The lists below are the reference against which the functions above are
compared: device names are the role tag followed by the first 11 bytes of the
port identifier. -/

/-- The local bridge of a port: `qbr` and the first 11 bytes of the identifier. -/
def qbrName (portID : GoString) : GoString := goStr "qbr" ++ portID.take 11

/-- The host-side tap device of a port. -/
def tapName (portID : GoString) : GoString := goStr "tap" ++ portID.take 11

/-- The sandbox-side end of the tap pair of a port. -/
def vifName (portID : GoString) : GoString := goStr "vif" ++ portID.take 11

/-- The veth end that is attached to the local bridge. -/
def qvbName (portID : GoString) : GoString := goStr "qvb" ++ portID.take 11

/-- The veth end that is attached to the integration bridge. -/
def qvoName (portID : GoString) : GoString := goStr "qvo" ++ portID.take 11

/-- The five device names that the naming functions derive for a port
identifier: bridge, tap, vif, qvb, qvo (`none` when one of them panics). -/
def deviceNames (p : OVSPlugin) (portID : GoString) : Option (List GoString) := do
  let bridge ← buildBridgeName p portID
  let (tap, vif) ← buildTapName p portID
  let (qvb, qvo) ← buildVethName p portID
  return [bridge, tap, vif, qvb, qvo]

/-- The inspection of the sandbox process. -/
def inspectCmd (cid : GoString) : Cmd :=
  ["docker", "inspect", "-f", "\x27\x7b\x7b.State.Pid\x7d\x7d\x27", cid]

/-- The teardown sequence: seven commands, then the removal of the namespace
symlink when the inspection printed at least one line (`pid`). -/
def teardownCmds (portID cid : GoString) (pid : List GoString) : List Cmd :=
  ([ ["ovs-vsctl", "-vconsole:off", "--if-exists", "del-port", qvoName portID],
     ["ip", "link", "set", "dev", qvoName portID, "down"],
     ["ip", "link", "delete", "dev", qvoName portID],
     ["ip", "link", "set", "dev", qbrName portID, "down"],
     ["brctl", "delbr", qbrName portID],
     ["ip", "link", "delete", tapName portID],
     inspectCmd cid ] : List Cmd) ++
  match pid with
  | [] => []
  | first :: _ => [["rm", "-f", goStr "/var/run/netns/" ++ Trim first apostrophe]]

/-- The output lines of the inspection that a teardown started at trace `tr` sees. -/
def pidSeen (env : Env) (tr : List Cmd) (portID cid : GoString) : List GoString :=
  (env (tr ++ (teardownCmds portID cid []).take 6) (inspectCmd cid)).out

/-- The eight commands of Phase A, in order. -/
def phaseACmds (p : OVSPlugin) (podName : GoString) (port : Port) : List Cmd :=
  [ ["ip", "link", "add", qvbName port.ID, "type", "veth", "peer", "name", qvoName port.ID],
    ["brctl", "addbr", qbrName port.ID],
    ["ip", "link", "set", qvbName port.ID, "up"],
    ["ip", "link", "set", qvoName port.ID, "up"],
    ["ip", "link", "set", qbrName port.ID, "up"],
    ["brctl", "addif", qbrName port.ID, qvbName port.ID],
    ["ovs-vsctl", "-vconsole:off", "--", "--if-exists", "del-port", qvoName port.ID, "--",
      "add-port", p.IntegrationBridge, qvoName port.ID, "--", "set", "Interface", qvoName port.ID,
      goStr "external_ids:attached-mac=" ++ port.MACAddress,
      goStr "external_ids:iface-id=" ++ port.ID,
      goStr "external_ids:vm-id=" ++ podName,
      "external_ids:iface-status=active"],
    ["ip", "link", "show", qbrName port.ID] ]

/-- The thirteen commands of Phase B, in order, for the namespace `netns`; the
error of the last one (the removal of the symlink) is only logged. -/
def phaseBCmds (port : Port) (cid ipcidr gateway ifName netns : GoString) : List Cmd :=
  [ ["ip", "link", "add", tapName port.ID, "type", "veth", "peer", "name", vifName port.ID],
    ["brctl", "addif", qbrName port.ID, tapName port.ID],
    ["ip", "link", "set", "dev", vifName port.ID, "address", port.MACAddress],
    inspectCmd cid,
    ["ln", "-s", goStr "/proc/" ++ netns ++ goStr "/ns/net", goStr "/var/run/netns/" ++ netns],
    ["ip", "link", "set", vifName port.ID, "netns", netns],
    ["ip", "netns", "exec", netns, "ip", "link", "set", vifName port.ID, "down"],
    ["ip", "netns", "exec", netns, "ip", "link", "set", vifName port.ID, "name", ifName],
    ["ip", "netns", "exec", netns, "ip", "link", "set", ifName, "up"],
    ["ip", "netns", "exec", netns, "ip", "addr", "add", "dev", ifName, ipcidr],
    ["ip", "netns", "exec", netns, "ip", "route", "add", "default", "via", gateway],
    ["ip", "link", "set", "dev", tapName port.ID, "up"],
    ["rm", "-f", goStr "/var/run/netns/" ++ netns] ]

/-- All setup commands of `SetupInterface`: Phase A (positions 0..7), then Phase B
(positions 8..20).  Positions 0..19 are the steps whose error ends the call. -/
def setupCmds (p : OVSPlugin) (podName cid : GoString) (port : Port)
    (ipcidr gateway ifName netns : GoString) : List Cmd :=
  phaseACmds p podName port ++ phaseBCmds port cid ipcidr gateway ifName netns

/-- Started at trace `tr`, each of the first `k` commands of `cmds`, issued in
order, returns no error. -/
def okBefore (env : Env) (tr : List Cmd) (cmds : List Cmd) (k : Nat) : Prop :=
  ∀ i, i < k → (env (tr ++ cmds.take i) (cmds.getD i [])).err = none

instance (env : Env) (tr : List Cmd) (cmds : List Cmd) (k : Nat) :
    Decidable (okBefore env tr cmds k) := by
  unfold okBefore; infer_instance

/-- Started at trace `tr`, command number `k` of `cmds`, issued after the
commands before it, returns the error `e`. -/
def failsAt (env : Env) (tr : List Cmd) (cmds : List Cmd) (k : Nat) (e : GoError) : Prop :=
  (env (tr ++ cmds.take k) (cmds.getD k [])).err = some e

instance (env : Env) (tr : List Cmd) (cmds : List Cmd) (k : Nat) (e : GoError) :
    Decidable (failsAt env tr cmds k e) := by
  unfold failsAt; infer_instance

/-! ## Sample inputs -/

/-- An environment in which every command succeeds and prints one empty line,
which is what a command that prints nothing yields. -/
def envSilent : Env := fun _ _ => { out := [[]], err := none }

/-- A sample port with a UUID-like identifier. -/
def samplePort : Port :=
  { ID := goStr "0123456789abcdef", MACAddress := goStr "fa:16:3e:00:00:01" }

/-- The same port identifier with another MAC address. -/
def samplePortOtherMac : Port :=
  { ID := goStr "0123456789abcdef", MACAddress := goStr "fa:16:3e:ff:ff:02" }

/-- A sample plugin, initialised with the integration bridge `br-int`. -/
def samplePlugin : OVSPlugin := { IntegrationBridge := goStr "br-int" }

/-- A plugin initialised with another integration bridge. -/
def samplePluginOther : OVSPlugin := { IntegrationBridge := goStr "br-other" }

/-- Two output lines that serve both as the answer of the inspection (first
line: a quoted process id) and of `ip link show` (second line: the MAC). -/
def sampleLines : List GoString :=
  [goStr "\x274242\x27", goStr "    link/ether fa:16:3e:aa:bb:cc brd ff:ff:ff:ff:ff:ff"]

/-- An environment in which every command succeeds and prints `sampleLines`. -/
def envOK : Env := fun _ _ => { out := sampleLines, err := none }

/-- A sample error value. -/
def sampleErr : GoError := { msg := goStr "exit status 1" }

/-- An environment in which the command issued after `n` earlier ones fails
with `sampleErr` and every other command succeeds and prints `sampleLines`. -/
def envFailAt (n : Nat) : Env := fun tr _ =>
  if tr.length = n then { out := [], err := some sampleErr }
  else { out := sampleLines, err := none }

/-- An environment in which `brctl addbr` fails because the bridge exists and
every other command succeeds and prints `sampleLines`. -/
def envBridgeExists : Env := fun _ c =>
  if c.take 2 = [goStr "brctl", goStr "addbr"] then
    { out := [goStr "device already exists; cannot create bridge with the same name"],
      err := some sampleErr }
  else { out := sampleLines, err := none }

/-- An environment in which every command fails and prints nothing. -/
def envAllFail : Env := fun _ _ => { out := [], err := some sampleErr }

/-- An environment in which every command succeeds and the inspection of the
sandbox process prints no line at all. -/
def envNoPid : Env := fun _ c =>
  if c.take 2 = [goStr "docker", goStr "inspect"] then { out := [], err := none }
  else { out := sampleLines, err := none }

/-! ## The tenant/network reconciler

The implementation of the reconciler (`rbac_controller.go`), of the role-binding
generator (package `rbac`), of the fake store (`kubecrd.FakeCRDClient`) and of
the constants of package `util` are not among the translated sources; only
`rbac_controller_test.go` is.  The objects the test builds are translated from
the test; the operations are modelled from the specification. -/

/-- The fields of `crv1.Tenant` the test sets. -/
structure Tenant where
  Name : GoString
  Namespace : GoString
  UserName : GoString
  Password : GoString
deriving DecidableEq

/-- The fields of `crv1.Network` the test sets. -/
structure Network where
  Name : GoString
  Namespace : GoString
  CIDR : GoString
  Gateway : GoString
deriving DecidableEq

/-- The controller as `NewRBACController(client, kubeCRDClient, userCIDR, userGateway)`
builds it.  `SystemPassword` stands for the constant `util.SystemPassword`, whose
declaration is not among the sources; it is carried as a parameter. -/
structure Controller where
  userCIDR : GoString
  userGateway : GoString
  SystemPassword : GoString
deriving DecidableEq

/-- Modelled from the spec: the constant `util.SystemTenant`, not among the sources;
the test looks the system tenant up under the name `default`. -/
def SystemTenant : GoString := goStr "default"

/-- Modelled from the spec: the constant `util.SystemNetwork`, not among the sources;
the test looks the system network up under the name `default`. -/
def SystemNetwork : GoString := goStr "default"

/-- The test object `systemTenant`. -/
def systemTenant (c : Controller) : Tenant :=
  { Name := SystemTenant, Namespace := SystemTenant, UserName := SystemTenant,
    Password := c.SystemPassword }

/-- The test object `systemNetwork`. -/
def systemNetwork (c : Controller) : Network :=
  { Name := SystemNetwork, Namespace := SystemTenant, CIDR := c.userCIDR,
    Gateway := c.userGateway }

/-- The test helper `newNetworkForTenant`. -/
def newNetworkForTenant (c : Controller) (ns : GoString) : Network :=
  { Name := ns, Namespace := ns, CIDR := c.userCIDR, Gateway := c.userGateway }

/-- Modelled from the spec: the platform-reserved namespaces (`util.IsSystemNamespace`,
not among the sources): `default`, `kube-system` and `kube-public`, the three
namespaces for which the test expects no network of their own. -/
def IsSystemNamespace (ns : GoString) : Bool :=
  ns = goStr "default" || ns = goStr "kube-system" || ns = goStr "kube-public"

/-- Modelled from the spec: whom an access binding grants the role to (section 4.2):
the principal identity of a tenant or the default workload identity of a
namespace. -/
inductive Subject where
  | tenantPrincipal (tenant : GoString) : Subject
  | defaultWorkload (ns : GoString) : Subject
deriving DecidableEq

/-- Modelled from the spec: the one, fixed, namespace-scoped administrative role
that both bindings grant (section 4.2). -/
inductive Role where
  | namespaceAdmin : Role
deriving DecidableEq

/-- Modelled from the spec: an access binding descriptor (section 4.2): name,
namespace, subject and role. -/
structure RoleBinding where
  Name : GoString
  Namespace : GoString
  Subject : Subject
  RoleRef : Role
deriving DecidableEq

/-- Modelled from the spec: `rbac.GenerateRoleBinding(namespace, tenant)`, not among
the sources: the binding `<tenant>-rolebinding` in the namespace, granting the
role to the principal identity of the tenant. -/
def GenerateRoleBinding (ns tenant : GoString) : RoleBinding :=
  { Name := tenant ++ goStr "-rolebinding", Namespace := ns,
    Subject := Subject.tenantPrincipal tenant, RoleRef := Role.namespaceAdmin }

/-- Modelled from the spec: `rbac.GenerateServiceAccountRoleBinding(namespace, tenant)`,
not among the sources: the binding `<tenant>-rolebinding-sa` in the namespace,
granting the role to the default workload identity of the namespace. -/
def GenerateServiceAccountRoleBinding (ns tenant : GoString) : RoleBinding :=
  { Name := tenant ++ goStr "-rolebinding-sa", Namespace := ns,
    Subject := Subject.defaultWorkload ns, RoleRef := Role.namespaceAdmin }

/-- Modelled from the spec: what a create call of the store answers (section 6):
ok, already exists, or another error. -/
inductive StoreResult where
  | ok : StoreResult
  | alreadyExists : StoreResult
  | failed (e : GoError) : StoreResult
deriving DecidableEq

/-- A create call received by the store. -/
inductive StoreCall where
  | addTenant (t : Tenant) : StoreCall
  | addNetwork (n : Network) : StoreCall
deriving DecidableEq

/-- Modelled from the spec: the store the test uses (`kubecrd.FakeCRDClient` together
with the fake clientset, neither among the sources): tenants and networks keyed
by name, role bindings keyed by namespace and name, the errors injected with
`InjectError("AddTenant", _)` and `InjectError("AddNetwork", _)`, and the create
calls received so far. -/
structure Store where
  Tenants : List Tenant
  Networks : List Network
  RoleBindings : List RoleBinding
  ErrAddTenant : Option GoError
  ErrAddNetwork : Option GoError
  Calls : List StoreCall
deriving DecidableEq

/-- The store of a new fake controller: empty, nothing injected. -/
def emptyStore : Store :=
  { Tenants := [], Networks := [], RoleBindings := [], ErrAddTenant := none,
    ErrAddNetwork := none, Calls := [] }

/-- The test call `InjectError("AddNetwork", e)`. -/
def Store.InjectAddNetworkError (s : Store) (e : GoError) : Store :=
  { s with ErrAddNetwork := some e }

/-- Lookup of a tenant by name (`Tenants[name]`). -/
def Store.getTenant (s : Store) (name : GoString) : Option Tenant :=
  s.Tenants.find? (fun t => t.Name = name)

/-- Lookup of a network by name (`Networks[name]`). -/
def Store.getNetwork (s : Store) (name : GoString) : Option Network :=
  s.Networks.find? (fun n => n.Name = name)

/-- Lookup of a role binding by namespace and name
(`RoleBindings(namespace).Get(name)`). -/
def Store.getRoleBinding (s : Store) (ns name : GoString) : Option RoleBinding :=
  s.RoleBindings.find? (fun b => b.Namespace = ns ∧ b.Name = name)

/-- Modelled from the spec: `AddTenant` of the store (section 6): the call is
recorded; an injected error is returned; a tenant of that name already present
is reported as already existing; otherwise the tenant is stored. -/
def Store.AddTenant (s : Store) (t : Tenant) : StoreResult × Store :=
  let s1 := { s with Calls := s.Calls ++ [StoreCall.addTenant t] }
  match s.ErrAddTenant with
  | some e => (StoreResult.failed e, s1)
  | none =>
    if (s.getTenant t.Name).isSome then (StoreResult.alreadyExists, s1)
    else (StoreResult.ok, { s1 with Tenants := s.Tenants ++ [t] })

/-- Modelled from the spec: `AddNetwork` of the store (section 6): the call is
recorded; an injected error is returned; a network of that name already
present is reported as already existing; otherwise the network is stored. -/
def Store.AddNetwork (s : Store) (n : Network) : StoreResult × Store :=
  let s1 := { s with Calls := s.Calls ++ [StoreCall.addNetwork n] }
  match s.ErrAddNetwork with
  | some e => (StoreResult.failed e, s1)
  | none =>
    if (s.getNetwork n.Name).isSome then (StoreResult.alreadyExists, s1)
    else (StoreResult.ok, { s1 with Networks := s.Networks ++ [n] })

/-- Modelled from the spec: the access-binding applier (section 6): create or
replace, by namespace and name. -/
def Store.applyRoleBinding (s : Store) (b : RoleBinding) : Store :=
  { s with RoleBindings :=
      b :: s.RoleBindings.filter (fun x => ¬ (x.Namespace = b.Namespace ∧ x.Name = b.Name)) }

/-- Modelled from the spec: how the reconciler reads the answer of a create call
(section 7): ok and already-exists are success, any other error is handed on
as it is. -/
def StoreResult.toError : StoreResult → Option GoError
  | StoreResult.ok => none
  | StoreResult.alreadyExists => none
  | StoreResult.failed e => some e

/-- Modelled from the spec: `createNetworkForTenant(namespace)` (section 4.1), whose
implementation is not among the sources: one create call to the store for the
network of the namespace with the configured CIDR and gateway; already-exists
is success; any other store error is returned unmodified. -/
def createNetworkForTenant (c : Controller) (ns : GoString) (s : Store) :
    Option GoError × Store :=
  let (r, s1) := s.AddNetwork (newNetworkForTenant c ns)
  (r.toError, s1)

/-- Modelled from the spec: `initSystemReservedTenantNetwork()` (section 4.1), whose
implementation is not among the sources: the Tenant create, then the Network
create for the bootstrap pair; already-exists on either is success; any other
error is returned to the caller at once. -/
def initSystemReservedTenantNetwork (c : Controller) (s : Store) : Option GoError × Store :=
  let (r, s1) := s.AddTenant (systemTenant c)
  match r.toError with
  | some e => (some e, s1)
  | none =>
    let (r2, s2) := s1.AddNetwork (systemNetwork c)
    (r2.toError, s2)

/-- Modelled from the spec: `syncRBAC(namespace)`, whose implementation is not among
the sources: both generated bindings of the namespace are applied with
create-or-replace (section 4.1, step 3). -/
def syncRBAC (ns : GoString) (s : Store) : Store :=
  (s.applyRoleBinding (GenerateRoleBinding ns ns)).applyRoleBinding
    (GenerateServiceAccountRoleBinding ns ns)

/-- The bootstrap pair is present: the store holds a tenant and a network of the
system names. -/
def Store.hasBootstrapPair (s : Store) : Bool :=
  (s.getTenant SystemTenant).isSome && (s.getNetwork SystemNetwork).isSome

/-- Modelled from the spec: `onAdd(namespace)` (section 4.1, `onNamespaceAdded`), whose
implementation is not among the sources: (1) if the bootstrap pair is absent,
create it; (2) if the namespace is not reserved, ensure its network; (3) always
apply the two bindings.  The handler returns nothing; errors are only logged. -/
def onAdd (c : Controller) (ns : GoString) (s : Store) : Store :=
  let s1 := if s.hasBootstrapPair then s else (initSystemReservedTenantNetwork c s).2
  let s2 := if IsSystemNamespace ns then s1 else (createNetworkForTenant c ns s1).2
  syncRBAC ns s2

/-- The store after `onAdd` has been applied, in order, to the namespaces `nss`,
starting from the store `s`. -/
def onAddAll (c : Controller) (nss : List GoString) (s : Store) : Store :=
  nss.foldl (fun st ns => onAdd c ns st) s

/-- The controller of the test: `userCIDR`, `userGateway` and a sample password. -/
def testController : Controller :=
  { userCIDR := goStr "10.244.0.0/16", userGateway := goStr "10.244.0.1",
    SystemPassword := goStr "secret" }

/-- The error the test injects: `fmt.Errorf("failed to create Network")`. -/
def errFailedCreateNetwork : GoError := { msg := goStr "failed to create Network" }

/-- The check of one case of `TestCreateNetworkForTenant`: the case reports a test
failure when `!expectErr && err == nil` or when `expectErr && err != nil`. -/
def testCasePasses (expectErr : Bool) (err : Option GoError) : Bool :=
  !((!expectErr && err.isNone) || (expectErr && err.isSome))

/-- The state the reconciler maintains after at least one event: nothing
injected, the system tenant alone, the system network and one network for each
namespace seen that is not reserved, and both bindings of each namespace seen. -/
def Reconciled (c : Controller) (S : Store) (seen : List GoString) : Prop :=
  S.ErrAddTenant = none ∧ S.ErrAddNetwork = none ∧
  S.Tenants = [systemTenant c] ∧
  (∀ n, S.getNetwork n =
    if n = SystemNetwork then some (systemNetwork c)
    else if n ∈ seen ∧ IsSystemNamespace n = false then some (newNetworkForTenant c n)
    else none) ∧
  (S.Networks.map (fun n => n.Name)).Nodup ∧
  ∀ n, n ∈ seen →
    S.getRoleBinding n (n ++ goStr "-rolebinding") = some (GenerateRoleBinding n n) ∧
    S.getRoleBinding n (n ++ goStr "-rolebinding-sa") =
      some (GenerateServiceAccountRoleBinding n n)

/-! ## Running computations -/

@[simp] theorem Exec.run_pure {α : Type} (a : α) (env : Env) (tr : List Cmd) :
    (Pure.pure a : Exec α) env tr = (Outcome.ret a, tr) := rfl

@[simp] theorem Exec.run_bind {α β : Type} (m : Exec α) (f : α → Exec β) (env : Env)
    (tr : List Cmd) :
    (m >>= f) env tr =
      match m env tr with
      | (Outcome.ret a, tr1) => f a env tr1
      | (Outcome.panic, tr1) => (Outcome.panic, tr1) := rfl

@[simp] theorem run_RunCommand (c : GoString) (args : List GoString) (env : Env) (tr : List Cmd) :
    RunCommand c args env tr = (Outcome.ret (env tr (c :: args)), tr ++ [c :: args]) := rfl

@[simp] theorem run_liftOpt_some {α : Type} (a : α) (env : Env) (tr : List Cmd) :
    liftOpt (some a) env tr = (Outcome.ret a, tr) := rfl

@[simp] theorem run_liftOpt_none {α : Type} (env : Env) (tr : List Cmd) :
    (liftOpt (none : Option α)) env tr = (Outcome.panic, tr) := rfl

/-! ## The naming functions -/

theorem goStr_tag_length : (goStr "qbr").length = 3 ∧ (goStr "tap").length = 3 ∧
    (goStr "vif").length = 3 ∧ (goStr "qvb").length = 3 ∧ (goStr "qvo").length = 3 := by decide

theorem sliceTo_tag (tag P : GoString) (ht : tag.length = 3) (h : 11 ≤ P.length) :
    sliceTo (tag ++ P) 14 = some (tag ++ P.take 11) := by
  have hlen : 14 ≤ (tag ++ P).length := by simp only [List.length_append]; omega
  have h3 : 14 - tag.length = 11 := by omega
  have h4 : tag.take 14 = tag := List.take_of_length_le (by omega)
  simp only [sliceTo, hlen, if_true, List.take_append_eq_append_take, h3, h4]

theorem buildBridgeName_eq (p : OVSPlugin) (P : GoString) (h : 11 ≤ P.length) :
    buildBridgeName p P = some (qbrName P) :=
  sliceTo_tag _ P goStr_tag_length.1 h

theorem buildTapName_eq (p : OVSPlugin) (P : GoString) (h : 11 ≤ P.length) :
    buildTapName p P = some (tapName P, vifName P) := by
  simp [buildTapName, tapName, vifName, sliceTo_tag _ P goStr_tag_length.2.1 h,
    sliceTo_tag _ P goStr_tag_length.2.2.1 h]

theorem buildVethName_eq (p : OVSPlugin) (P : GoString) (h : 11 ≤ P.length) :
    buildVethName p P = some (qvbName P, qvoName P) := by
  simp [buildVethName, qvbName, qvoName, sliceTo_tag _ P goStr_tag_length.2.2.2.1 h,
    sliceTo_tag _ P goStr_tag_length.2.2.2.2 h]

/-! ## Teardown -/

theorem run_DestroyInterface (p : OVSPlugin) (pod cid : GoString) (port : Port) (env : Env)
    (tr : List Cmd) (h : 11 ≤ port.ID.length) :
    DestroyInterface p pod cid port env tr =
      (Outcome.ret none, tr ++ teardownCmds port.ID cid (pidSeen env tr port.ID cid)) := by
  simp only [DestroyInterface, destroyOVSInterface, destroySandboxInterface,
    buildBridgeName_eq _ _ h, buildVethName_eq _ _ h, buildTapName_eq _ _ h, Exec.run_bind,
    run_liftOpt_some, run_RunCommand, Exec.run_pure, pidSeen, teardownCmds, List.append_assoc,
    List.singleton_append, List.cons_append, List.nil_append, inspectCmd, List.take_succ_cons,
    List.take_zero, List.append_nil]
  split_ifs with hpos
  · obtain ⟨a, l, hX⟩ := List.exists_cons_of_length_pos hpos
    simp [hX, index]
  · have hX := List.length_eq_zero.mp (Nat.eq_zero_of_not_pos hpos)
    simp [hX]

/-! ## Phase A -/

theorem SetupOVSInterface_fail (p : OVSPlugin) (pod cid : GoString) (port : Port) (env : Env)
    (tr : List Cmd) (e : GoError) (k : Nat) (hid : 11 ≤ port.ID.length) (hk : k < 8)
    (hok : okBefore env tr (phaseACmds p pod port) k)
    (hfail : failsAt env tr (phaseACmds p pod port) k e) :
    SetupOVSInterface p pod cid port env tr =
      (Outcome.ret (none, some e),
        tr ++ (phaseACmds p pod port).take (k + 1) ++
          teardownCmds port.ID cid
            (pidSeen env (tr ++ (phaseACmds p pod port).take (k + 1)) port.ID cid)) := by
  have h0 := hok 0
  have h1 := hok 1
  have h2 := hok 2
  have h3 := hok 3
  have h4 := hok 4
  have h5 := hok 5
  have h6 := hok 6
  unfold failsAt at hfail
  interval_cases k <;>
  simp only [phaseACmds, List.take_succ_cons, List.take_zero, List.append_nil,
    Nat.lt_irrefl, Nat.not_lt_zero, Nat.reduceLT, forall_true_left, forall_false,
    List.getD_eq_getElem?_getD, List.getElem?_cons_zero, List.getElem?_cons_succ,
    Option.getD_some] at h0 h1 h2 h3 h4 h5 h6 hfail <;>
  simp only [SetupOVSInterface, buildBridgeName_eq _ _ hid, buildVethName_eq _ _ hid,
    run_DestroyInterface _ _ _ _ _ _ hid, Exec.run_bind, run_liftOpt_some, run_RunCommand,
    Exec.run_pure, phaseACmds, List.take_succ_cons, List.take_zero, List.append_nil,
    List.append_assoc, List.singleton_append, List.cons_append, List.nil_append, Nat.reduceAdd, *]

theorem SetupOVSInterface_ok (p : OVSPlugin) (pod cid : GoString) (port : Port) (env : Env)
    (tr : List Cmd) (line : GoString) (hid : 11 ≤ port.ID.length)
    (hok : okBefore env tr (phaseACmds p pod port) 8)
    (hline : (env (tr ++ (phaseACmds p pod port).take 7)
      ["ip", "link", "show", qbrName port.ID]).out.get? 1 = some line)
    (hlen : 32 ≤ line.length) :
    SetupOVSInterface p pod cid port env tr =
      (Outcome.ret (some { Name := qbrName port.ID, Mac := (line.take 32).drop 15 }, none),
        tr ++ phaseACmds p pod port) := by
  have h0 := hok 0
  have h1 := hok 1
  have h2 := hok 2
  have h3 := hok 3
  have h4 := hok 4
  have h5 := hok 5
  have h6 := hok 6
  have h7 := hok 7
  have hsl : slice line 15 32 = some ((line.take 32).drop 15) := by
    simp [slice, hlen]
  simp only [phaseACmds, List.take_succ_cons, List.take_zero, List.append_nil,
    Nat.lt_irrefl, Nat.not_lt_zero, Nat.reduceLT, forall_true_left, forall_false,
    List.getD_eq_getElem?_getD, List.getElem?_cons_zero, List.getElem?_cons_succ,
    Option.getD_some] at h0 h1 h2 h3 h4 h5 h6 h7 hline
  simp only [SetupOVSInterface, buildBridgeName_eq _ _ hid, buildVethName_eq _ _ hid,
    Exec.run_bind, run_liftOpt_some, run_RunCommand, index, hsl,
    Exec.run_pure, phaseACmds, List.take_succ_cons, List.take_zero, List.append_nil,
    List.append_assoc, List.singleton_append, List.cons_append, List.nil_append, *]

theorem tagged_name_inj {tagA tagB a b : GoString} (hlen : tagA.length = tagB.length)
    (h : tagA ++ a = tagB ++ b) : a = b :=
  (List.append_inj h hlen).2

/-! ## Phase B -/

theorem SetupSandboxInterface_fail (p : OVSPlugin) (pod cid : GoString) (port : Port)
    (ipcidr gateway ifName netns : GoString) (env : Env) (tr : List Cmd) (e : GoError) (k : Nat)
    (hid : 11 ≤ port.ID.length) (hk : k < 12)
    (hok : okBefore env tr (phaseBCmds port cid ipcidr gateway ifName netns) k)
    (hfail : failsAt env tr (phaseBCmds port cid ipcidr gateway ifName netns) k e)
    (hpid : 4 ≤ k → ∃ first rest,
      (env (tr ++ (phaseBCmds port cid ipcidr gateway ifName netns).take 3) (inspectCmd cid)).out
        = first :: rest ∧ netns = Trim first apostrophe) :
    SetupSandboxInterface p pod cid port ipcidr gateway ifName env tr =
      (Outcome.ret (none, some e),
        tr ++ (phaseBCmds port cid ipcidr gateway ifName netns).take (k + 1) ++
          teardownCmds port.ID cid
            (pidSeen env (tr ++ (phaseBCmds port cid ipcidr gateway ifName netns).take (k + 1))
              port.ID cid)) := by
  have h0 := hok 0
  have h1 := hok 1
  have h2 := hok 2
  have h3 := hok 3
  have h4 := hok 4
  have h5 := hok 5
  have h6 := hok 6
  have h7 := hok 7
  have h8 := hok 8
  have h9 := hok 9
  have h10 := hok 10
  unfold failsAt at hfail
  by_cases hk4 : 4 ≤ k
  · obtain ⟨first, rest, hout, hns⟩ := hpid hk4
    clear hpid
    subst hns
    clear hok
    interval_cases k <;>
    simp only [phaseBCmds, inspectCmd, List.take_succ_cons, List.take_zero, List.append_nil, List.append_assoc,
      Nat.lt_irrefl, Nat.not_lt_zero, Nat.reduceLT, forall_true_left, forall_false,
      List.getD_eq_getElem?_getD, List.getElem?_cons_zero, List.getElem?_cons_succ,
      Option.getD_some] at h0 h1 h2 h3 h4 h5 h6 h7 h8 h9 h10 hfail hout <;>
    simp only [SetupSandboxInterface, buildBridgeName_eq _ _ hid, buildTapName_eq _ _ hid,
      run_DestroyInterface _ _ _ _ _ _ hid, Exec.run_bind, run_liftOpt_some, run_RunCommand,
      Exec.run_pure, phaseBCmds, inspectCmd, index, List.get?_cons_zero, List.take_succ_cons,
      List.take_zero, List.append_nil, List.append_assoc, List.singleton_append, List.cons_append,
      List.nil_append, Nat.reduceAdd, *]
  · clear hpid hok
    have hk' : k < 4 := by omega
    interval_cases k <;>
    simp only [phaseBCmds, inspectCmd, List.take_succ_cons, List.take_zero, List.append_nil, List.append_assoc,
      Nat.lt_irrefl, Nat.not_lt_zero, Nat.reduceLT, forall_true_left, forall_false,
      List.getD_eq_getElem?_getD, List.getElem?_cons_zero, List.getElem?_cons_succ,
      Option.getD_some] at h0 h1 h2 h3 h4 h5 h6 h7 h8 h9 h10 hfail <;>
    simp only [SetupSandboxInterface, buildBridgeName_eq _ _ hid, buildTapName_eq _ _ hid,
      run_DestroyInterface _ _ _ _ _ _ hid, Exec.run_bind, run_liftOpt_some, run_RunCommand,
      Exec.run_pure, phaseBCmds, inspectCmd, index, List.get?_cons_zero, List.take_succ_cons,
      List.take_zero, List.append_nil, List.append_assoc, List.singleton_append, List.cons_append,
      List.nil_append, Nat.reduceAdd, *]

theorem SetupSandboxInterface_ok (p : OVSPlugin) (pod cid : GoString) (port : Port)
    (ipcidr gateway ifName netns : GoString) (env : Env) (tr : List Cmd)
    (hid : 11 ≤ port.ID.length)
    (hok : okBefore env tr (phaseBCmds port cid ipcidr gateway ifName netns) 12)
    (hpid : ∃ first rest,
      (env (tr ++ (phaseBCmds port cid ipcidr gateway ifName netns).take 3) (inspectCmd cid)).out
        = first :: rest ∧ netns = Trim first apostrophe) :
    SetupSandboxInterface p pod cid port ipcidr gateway ifName env tr =
      (Outcome.ret (some { Name := ifName }, none),
        tr ++ phaseBCmds port cid ipcidr gateway ifName netns) := by
  have h0 := hok 0
  have h1 := hok 1
  have h2 := hok 2
  have h3 := hok 3
  have h4 := hok 4
  have h5 := hok 5
  have h6 := hok 6
  have h7 := hok 7
  have h8 := hok 8
  have h9 := hok 9
  have h10 := hok 10
  have h11 := hok 11
  obtain ⟨first, rest, hout, hns⟩ := hpid
  subst hns
  simp only [phaseBCmds, inspectCmd, List.take_succ_cons, List.take_zero, List.append_nil, List.append_assoc,
    Nat.lt_irrefl, Nat.not_lt_zero, Nat.reduceLT, forall_true_left, forall_false,
    List.getD_eq_getElem?_getD, List.getElem?_cons_zero, List.getElem?_cons_succ,
    Option.getD_some] at h0 h1 h2 h3 h4 h5 h6 h7 h8 h9 h10 h11 hout
  simp only [SetupSandboxInterface, buildBridgeName_eq _ _ hid, buildTapName_eq _ _ hid,
    Exec.run_bind, run_liftOpt_some, run_RunCommand,
    Exec.run_pure, phaseBCmds, inspectCmd, index, List.get?_cons_zero, List.take_succ_cons,
    List.take_zero, List.append_nil, List.append_assoc, List.singleton_append, List.cons_append,
    List.nil_append, *]

/-! ## Splitting a command sequence -/

theorem phaseACmds_length (p : OVSPlugin) (pod : GoString) (port : Port) :
    (phaseACmds p pod port).length = 8 := rfl

theorem phaseBCmds_length (port : Port) (cid ipcidr gateway ifName netns : GoString) :
    (phaseBCmds port cid ipcidr gateway ifName netns).length = 13 := rfl

theorem okBefore_mono {env : Env} {tr cmds : List Cmd} {k j : Nat}
    (h : okBefore env tr cmds k) (hj : j ≤ k) : okBefore env tr cmds j :=
  fun i hi => h i (Nat.lt_of_lt_of_le hi hj)

theorem okBefore_left {env : Env} {tr A B : List Cmd} {k : Nat}
    (h : okBefore env tr (A ++ B) k) (hk : k ≤ A.length) : okBefore env tr A k := by
  intro i hi
  have hi' : i < A.length := Nat.lt_of_lt_of_le hi hk
  have := h i hi
  rwa [List.take_append_of_le_length (Nat.le_of_lt hi'), List.getD_append _ _ _ _ hi'] at this

theorem failsAt_left {env : Env} {tr A B : List Cmd} {k : Nat} {e : GoError}
    (h : failsAt env tr (A ++ B) k e) (hk : k < A.length) : failsAt env tr A k e := by
  unfold failsAt at h ⊢
  rwa [List.take_append_of_le_length (Nat.le_of_lt hk), List.getD_append _ _ _ _ hk] at h

theorem okBefore_right {env : Env} {tr A B : List Cmd} {j : Nat}
    (h : okBefore env tr (A ++ B) (A.length + j)) : okBefore env (tr ++ A) B j := by
  intro i hi
  have := h (A.length + i) (by omega)
  rwa [List.take_append, List.getD_append_right _ _ _ _ (by omega), Nat.add_sub_cancel_left,
    ← List.append_assoc] at this

theorem failsAt_right {env : Env} {tr A B : List Cmd} {j : Nat} {e : GoError}
    (h : failsAt env tr (A ++ B) (A.length + j) e) : failsAt env (tr ++ A) B j e := by
  unfold failsAt at h ⊢
  rwa [List.take_append, List.getD_append_right _ _ _ _ (by omega), Nat.add_sub_cancel_left,
    ← List.append_assoc] at h

/-! ## The namespace name -/

theorem dropWhile_eq_self_of_head {c : UInt8} (N : GoString) (h : N.head? ≠ some c) :
    N.dropWhile (fun b => b == c) = N := by
  cases N with
  | nil => rfl
  | cons a l =>
    have hac : a ≠ c := fun hEq => h (by simp [hEq])
    exact List.dropWhile_cons_of_neg (by simpa using hac)

theorem dropWhile_cons_self (c : UInt8) (l : GoString) :
    (c :: l).dropWhile (fun b => b == c) = l.dropWhile (fun b => b == c) :=
  List.dropWhile_cons_of_pos (by simp)

theorem Trim_quoted (N : GoString) (c : UInt8) (hhead : N.head? ≠ some c)
    (hlast : N.getLast? ≠ some c) : Trim (c :: (N ++ [c])) c = N := by
  have e1 : (c :: (N ++ [c])).reverse = c :: (N.reverse ++ [c]) := by simp
  unfold Trim trimRightByte trimLeftByte
  rw [e1, dropWhile_cons_self]
  by_cases hN : N = []
  · subst hN
    rw [List.reverse_nil, List.nil_append, dropWhile_cons_self]
    rfl
  · have hX : (N.reverse ++ [c]).head? ≠ some c := by
      obtain ⟨a, l, hal⟩ := List.exists_cons_of_ne_nil (fun h => hN (List.reverse_eq_nil_iff.mp h))
      have h1 : N.reverse.head? ≠ some c := by rwa [List.head?_reverse]
      rw [hal] at h1 ⊢
      exact h1
    rw [dropWhile_eq_self_of_head _ hX]
    have e2 : (N.reverse ++ [c]).reverse = c :: N := by simp
    rw [e2, dropWhile_cons_self]
    exact dropWhile_eq_self_of_head N hhead

/-! ## Phase A when every command succeeds -/

theorem run_liftOpt_snd {α : Type} (o : Option α) (env : Env) (tr : List Cmd) :
    (liftOpt o env tr).2 = tr := by
  cases o <;> rfl

theorem SetupOVSInterface_trace_ok (p : OVSPlugin) (pod cid : GoString) (port : Port) (env : Env)
    (tr : List Cmd) (hid : 11 ≤ port.ID.length)
    (hok : okBefore env tr (phaseACmds p pod port) 8) :
    (SetupOVSInterface p pod cid port env tr).2 = tr ++ phaseACmds p pod port ∧
    ((SetupOVSInterface p pod cid port env tr).1 = Outcome.panic ∨
      ∃ br, (SetupOVSInterface p pod cid port env tr).1 = Outcome.ret (some br, none)) := by
  have h0 := hok 0
  have h1 := hok 1
  have h2 := hok 2
  have h3 := hok 3
  have h4 := hok 4
  have h5 := hok 5
  have h6 := hok 6
  have h7 := hok 7
  simp only [phaseACmds, List.take_succ_cons, List.take_zero, List.append_nil,
    Nat.lt_irrefl, Nat.not_lt_zero, Nat.reduceLT, forall_true_left, forall_false,
    List.getD_eq_getElem?_getD, List.getElem?_cons_zero, List.getElem?_cons_succ,
    Option.getD_some] at h0 h1 h2 h3 h4 h5 h6 h7
  simp only [SetupOVSInterface, buildBridgeName_eq _ _ hid, buildVethName_eq _ _ hid,
    Exec.run_bind, run_liftOpt_some, run_RunCommand,
    Exec.run_pure, phaseACmds, List.take_succ_cons, List.take_zero, List.append_nil,
    List.append_assoc, List.singleton_append, List.cons_append, List.nil_append, *]
  cases hidx : index (env
      (tr ++
        [[goStr "ip", goStr "link", goStr "add", qvbName port.ID, goStr "type", goStr "veth",
            goStr "peer", goStr "name", qvoName port.ID],
          [goStr "brctl", goStr "addbr", qbrName port.ID],
          [goStr "ip", goStr "link", goStr "set", qvbName port.ID, goStr "up"],
          [goStr "ip", goStr "link", goStr "set", qvoName port.ID, goStr "up"],
          [goStr "ip", goStr "link", goStr "set", qbrName port.ID, goStr "up"],
          [goStr "brctl", goStr "addif", qbrName port.ID, qvbName port.ID],
          [goStr "ovs-vsctl", goStr "-vconsole:off", goStr "--", goStr "--if-exists",
            goStr "del-port", qvoName port.ID, goStr "--", goStr "add-port", p.IntegrationBridge,
            qvoName port.ID, goStr "--", goStr "set", goStr "Interface", qvoName port.ID,
            goStr "external_ids:attached-mac=" ++ port.MACAddress,
            goStr "external_ids:iface-id=" ++ port.ID, goStr "external_ids:vm-id=" ++ pod,
            goStr "external_ids:iface-status=active"]])
      [goStr "ip", goStr "link", goStr "show", qbrName port.ID]).out 1 with
  | none => simp
  | some line =>
    cases hsl : slice line 15 32 with
    | none => simp [hsl]
    | some mac => simp [hsl]

theorem mac_of_link_line (mac more : GoString) (hmac : mac.length = 17) :
    ((goStr "    link/ether " ++ mac ++ more).take 32).drop 15 = mac ∧
    32 ≤ (goStr "    link/ether " ++ mac ++ more).length := by
  have hL : (goStr "    link/ether ").length = 15 := by decide
  have h32 : (goStr "    link/ether " ++ mac).length = 32 := by
    rw [List.length_append, hL, hmac]
  constructor
  · rw [List.take_left' h32, List.drop_left' hL]
  · rw [List.length_append, h32]; omega

/-! ## The first failing command -/

theorem first_failure (env : Env) (tr cmds : List Cmd) (n : Nat) :
    okBefore env tr cmds n ∨
      ∃ k, k < n ∧ okBefore env tr cmds k ∧ ∃ e, failsAt env tr cmds k e := by
  induction n with
  | zero => exact Or.inl (fun i hi => absurd hi (Nat.not_lt_zero i))
  | succ n ih =>
    rcases ih with hok | ⟨k, hk, hok, e, he⟩
    · cases herr : (env (tr ++ cmds.take n) (cmds.getD n [])).err with
      | none =>
        left
        intro i hi
        rcases Nat.lt_succ_iff_lt_or_eq.mp hi with h | h
        · exact hok i h
        · rw [h]; exact herr
      | some e => exact Or.inr ⟨n, Nat.lt_succ_self n, hok, e, herr⟩
    · exact Or.inr ⟨k, Nat.lt_succ_of_lt hk, hok, e, he⟩

theorem tapCreate_not_in_phaseA (p : OVSPlugin) (pod : GoString) (port : Port) :
    [goStr "ip", goStr "link", goStr "add", tapName port.ID, goStr "type", goStr "veth",
      goStr "peer", goStr "name", vifName port.ID] ∉ phaseACmds p pod port := by
  have htag : goStr "tap" ≠ goStr "qvb" := by decide
  have hlen : (goStr "tap").length = (goStr "qvb").length := by decide
  intro h
  simp only [phaseACmds, List.mem_cons, List.cons.injEq, List.mem_singleton, List.not_mem_nil,
    and_true, true_and, false_and, and_false, or_false, false_or, reduceCtorEq] at h
  exact htag (List.append_inj h.1 hlen).1

theorem tapCreate_not_in_teardown (port : Port) (cid : GoString) (pid : List GoString) :
    [goStr "ip", goStr "link", goStr "add", tapName port.ID, goStr "type", goStr "veth",
      goStr "peer", goStr "name", vifName port.ID] ∉ teardownCmds port.ID cid pid := by
  intro h
  cases pid <;>
  simp [teardownCmds, inspectCmd] at h

/-! ## The store -/

theorem find?_filter_of_imp {α : Type} (p q : α → Bool) (l : List α)
    (h : ∀ x, q x = true → p x = true) : (l.filter p).find? q = l.find? q := by
  induction l with
  | nil => rfl
  | cons x l ih =>
    cases hp : p x with
    | true =>
      rw [List.filter_cons_of_pos hp, List.find?_cons, List.find?_cons, ih]
    | false =>
      have hq : q x = false := by
        cases hq : q x with
        | false => rfl
        | true => rw [h x hq] at hp; exact absurd hp (by simp)
      rw [List.filter_cons_of_neg (by simp [hp]), List.find?_cons, hq, ih]

theorem getRoleBinding_apply (s : Store) (b : RoleBinding) (ns name : GoString) :
    (s.applyRoleBinding b).getRoleBinding ns name =
      if b.Namespace = ns ∧ b.Name = name then some b else s.getRoleBinding ns name := by
  unfold Store.applyRoleBinding Store.getRoleBinding
  by_cases hk : b.Namespace = ns ∧ b.Name = name
  · rw [if_pos hk, List.find?_cons_of_pos _ (by simpa using hk)]
  · rw [if_neg hk, List.find?_cons_of_neg _ (by simpa using hk)]
    apply find?_filter_of_imp
    intro x hx
    have hx2 : x.Namespace = ns ∧ x.Name = name := by simpa using hx
    have : ¬ (x.Namespace = b.Namespace ∧ x.Name = b.Name) := by
      rintro ⟨h1, h2⟩
      exact hk ⟨h1.symm.trans hx2.1, h2.symm.trans hx2.2⟩
    exact decide_eq_true this

theorem getNetwork_append (s : Store) (n : Network) (name : GoString) :
    ({ s with Networks := s.Networks ++ [n] } : Store).getNetwork name =
      (s.getNetwork name).or (if n.Name = name then some n else none) := by
  unfold Store.getNetwork
  simp only [List.find?_append, List.find?_cons, List.find?_nil]
  by_cases h : n.Name = name <;> simp [h]

theorem rolebinding_names_ne (n : GoString) :
    n ++ goStr "-rolebinding" ≠ n ++ goStr "-rolebinding-sa" := by
  intro h
  exact absurd (List.append_cancel_left h) (by decide)

/-! ## One event on a store that holds the bootstrap pair -/

theorem syncRBAC_fields (n : GoString) (s : Store) :
    (syncRBAC n s).Tenants = s.Tenants ∧ (syncRBAC n s).Networks = s.Networks ∧
    (syncRBAC n s).ErrAddTenant = s.ErrAddTenant ∧
    (syncRBAC n s).ErrAddNetwork = s.ErrAddNetwork :=
  ⟨rfl, rfl, rfl, rfl⟩

theorem syncRBAC_getNetwork (n name : GoString) (s : Store) :
    (syncRBAC n s).getNetwork name = s.getNetwork name := rfl

theorem getRoleBinding_congr (s t : Store) (h : s.RoleBindings = t.RoleBindings)
    (ns name : GoString) : s.getRoleBinding ns name = t.getRoleBinding ns name := by
  unfold Store.getRoleBinding; rw [h]

theorem createNetworkForTenant_fields (c : Controller) (n : GoString) (s : Store)
    (hf : s.ErrAddNetwork = none) :
    (createNetworkForTenant c n s).2.Tenants = s.Tenants ∧
    (createNetworkForTenant c n s).2.RoleBindings = s.RoleBindings ∧
    (createNetworkForTenant c n s).2.ErrAddTenant = s.ErrAddTenant ∧
    (createNetworkForTenant c n s).2.ErrAddNetwork = s.ErrAddNetwork ∧
    (createNetworkForTenant c n s).2.Networks =
      if (s.getNetwork n).isSome then s.Networks
      else s.Networks ++ [newNetworkForTenant c n] := by
  unfold createNetworkForTenant Store.AddNetwork
  simp only [hf, newNetworkForTenant]
  split_ifs <;> exact ⟨rfl, rfl, rfl, hf.symm ▸ rfl, rfl⟩

theorem onAdd_of_bootstrapped (c : Controller) (n : GoString) (s : Store)
    (hb : s.hasBootstrapPair = true) :
    onAdd c n s =
      syncRBAC n (if IsSystemNamespace n then s else (createNetworkForTenant c n s).2) := by
  unfold onAdd
  simp only [hb, if_true]

theorem bootstrap_of_empty (c : Controller) :
    (initSystemReservedTenantNetwork c emptyStore).1 = none ∧
    Reconciled c (initSystemReservedTenantNetwork c emptyStore).2 [] ∧
    ∀ n, onAdd c n emptyStore = onAdd c n (initSystemReservedTenantNetwork c emptyStore).2 := by
  have hS : (initSystemReservedTenantNetwork c emptyStore).2 =
      { Tenants := [systemTenant c], Networks := [systemNetwork c], RoleBindings := [],
        ErrAddTenant := none, ErrAddNetwork := none,
        Calls := [StoreCall.addTenant (systemTenant c), StoreCall.addNetwork (systemNetwork c)] } := by
    rfl
  refine ⟨rfl, ?_, ?_⟩
  · rw [hS]
    refine ⟨rfl, rfl, rfl, ?_, ?_, ?_⟩
    · intro n
      by_cases h : n = SystemNetwork
      · subst h; simp [Store.getNetwork, systemNetwork]
      · have h2 : ¬ SystemNetwork = n := fun e => h e.symm
        simp [Store.getNetwork, systemNetwork, h, h2]
    · simp
    · intro n hn; exact absurd hn (List.not_mem_nil n)
  · intro n
    have hb : (initSystemReservedTenantNetwork c emptyStore).2.hasBootstrapPair = true := by
      rw [hS]; simp [Store.hasBootstrapPair, Store.getTenant, Store.getNetwork, systemTenant,
        systemNetwork]
    have he : emptyStore.hasBootstrapPair = false := rfl
    rw [onAdd_of_bootstrapped c n _ hb]
    unfold onAdd
    simp only [he, Bool.false_eq_true, if_false]

theorem Reconciled.hasBootstrapPair {c : Controller} {S : Store} {seen : List GoString}
    (h : Reconciled c S seen) : S.hasBootstrapPair = true := by
  obtain ⟨_, _, hT, hN, _, _⟩ := h
  have h1 := hN SystemNetwork
  simp only [if_true] at h1
  simp [Store.hasBootstrapPair, Store.getTenant, hT, h1, systemTenant]

theorem systemNetwork_reserved : IsSystemNamespace SystemNetwork = true := by decide

theorem Reconciled.step {c : Controller} {S : Store} {seen : List GoString}
    (h : Reconciled c S seen) (n : GoString) : Reconciled c (onAdd c n S) (seen ++ [n]) := by
  have hb := h.hasBootstrapPair
  obtain ⟨hfT, hfN, hT, hN, hnd, hrb⟩ := h
  rw [onAdd_of_bootstrapped c n S hb]
  have hcf := createNetworkForTenant_fields c n S hfN
  -- the store before the bindings are applied
  have key : ∀ s2 : Store, s2.Tenants = S.Tenants → s2.RoleBindings = S.RoleBindings →
      s2.ErrAddTenant = S.ErrAddTenant → s2.ErrAddNetwork = S.ErrAddNetwork →
      (∀ m, s2.getNetwork m =
        if m = SystemNetwork then some (systemNetwork c)
        else if m ∈ seen ++ [n] ∧ IsSystemNamespace m = false then
          some (newNetworkForTenant c m)
        else none) →
      (s2.Networks.map (fun x => x.Name)).Nodup →
      Reconciled c (syncRBAC n s2) (seen ++ [n]) := by
    intro s2 e1 e2 e3 e4 e5 e6
    refine ⟨e3.trans hfT, e4.trans hfN, e1.trans hT, e5, e6, ?_⟩
    intro m hm
    unfold syncRBAC
    rw [getRoleBinding_apply, getRoleBinding_apply, getRoleBinding_apply, getRoleBinding_apply]
    simp only [GenerateRoleBinding, GenerateServiceAccountRoleBinding]
    by_cases hmn : n = m
    · subst hmn
      have h1 : ¬ (n ++ goStr "-rolebinding-sa" = n ++ goStr "-rolebinding") :=
        fun e => rolebinding_names_ne n e.symm
      simp [h1]
    · have hm2 : m ∈ seen := by
        rcases List.mem_append.mp hm with h | h
        · exact h
        · exact absurd (List.mem_singleton.mp h).symm hmn
      simp only [hmn, false_and, if_false]
      rw [getRoleBinding_congr s2 S e2, getRoleBinding_congr s2 S e2]
      exact hrb m hm2
  by_cases hres : IsSystemNamespace n = true
  · rw [if_pos hres]
    refine key S rfl rfl rfl rfl ?_ hnd
    intro m
    rw [hN m]
    by_cases hm : m = SystemNetwork
    · simp [hm]
    · simp only [hm, if_false, List.mem_append, List.mem_singleton]
      by_cases hmn : m = n
      · subst hmn; simp [hres]
      · simp [hmn]
  · rw [if_neg hres]
    have hres2 : IsSystemNamespace n = false := by simpa using hres
    have hnsys : n ≠ SystemNetwork := by
      intro e; rw [e, systemNetwork_reserved] at hres2; exact absurd hres2 (by simp)
    obtain ⟨c1, c2, c3, c4, c5⟩ := hcf
    by_cases hpres : (S.getNetwork n).isSome = true
    · rw [if_pos hpres] at c5
      have hgn : (createNetworkForTenant c n S).2.getNetwork = S.getNetwork := by
        funext m; unfold Store.getNetwork; rw [c5]
      refine key _ c1 c2 c3 c4 ?_ (by rw [c5]; exact hnd)
      intro m
      rw [hgn, hN m]
      by_cases hm : m = SystemNetwork
      · simp [hm]
      · simp only [hm, if_false, List.mem_append, List.mem_singleton]
        by_cases hmn : m = n
        · subst hmn
          have hx := hN m
          simp only [hm, if_false] at hx
          rw [hx] at hpres
          by_cases hin : m ∈ seen ∧ IsSystemNamespace m = false
          · simp [hin, hres2]
          · simp [hin] at hpres
        · simp [hmn]
    · rw [if_neg hpres] at c5
      have hnone : S.getNetwork n = none := by
        cases hg : S.getNetwork n with
        | none => rfl
        | some x => rw [hg] at hpres; exact absurd rfl hpres
      have hgn : ∀ m, (createNetworkForTenant c n S).2.getNetwork m =
          (S.getNetwork m).or (if n = m then some (newNetworkForTenant c n) else none) := by
        intro m
        have := getNetwork_append S (newNetworkForTenant c n) m
        unfold Store.getNetwork at this ⊢
        rw [c5]
        exact this
      refine key _ c1 c2 c3 c4 ?_ ?_
      · intro m
        rw [hgn m, hN m]
        by_cases hmn : n = m
        · subst hmn
          rw [hN n] at hnone
          simp only [hnsys, if_false] at hnone ⊢
          have hnotin : n ∉ seen := by
            intro hin
            rw [if_pos ⟨hin, hres2⟩] at hnone
            exact absurd hnone (by simp)
          simp [hnotin, hres2]
        · have hmn2 : ¬ m = n := fun e => hmn e.symm
          simp [hmn, hmn2]
      · rw [c5, List.map_append, List.map_cons, List.map_nil]
        refine List.Nodup.append hnd (List.nodup_singleton _) ?_
        intro x hx hx2
        rw [List.mem_singleton] at hx2
        subst hx2
        obtain ⟨y, hy, hyn⟩ := List.mem_map.mp hx
        have := List.find?_eq_none.mp hnone y hy
        exact this (by simpa [newNetworkForTenant] using hyn)

theorem Reconciled.all {c : Controller} (nss : List GoString) :
    ∀ {S : Store} {seen : List GoString}, Reconciled c S seen →
      Reconciled c (onAddAll c nss S) (seen ++ nss) := by
  induction nss with
  | nil => intro S seen h; simpa [onAddAll] using h
  | cons n rest ih =>
    intro S seen h
    have := ih (h.step n)
    simpa [onAddAll, List.append_assoc] using this

/-! ## The commands a run can issue, for every environment -/

theorem SetupSandboxInterface_panic (p : OVSPlugin) (pod cid : GoString) (port : Port)
    (ipcidr gateway ifName netns : GoString) (env : Env) (tr : List Cmd)
    (hid : 11 ≤ port.ID.length)
    (hok : okBefore env tr (phaseBCmds port cid ipcidr gateway ifName netns) 4)
    (hout : (env (tr ++ (phaseBCmds port cid ipcidr gateway ifName netns).take 3)
      (inspectCmd cid)).out = []) :
    SetupSandboxInterface p pod cid port ipcidr gateway ifName env tr =
      (Outcome.panic, tr ++ (phaseBCmds port cid ipcidr gateway ifName netns).take 4) := by
  have h0 := hok 0
  have h1 := hok 1
  have h2 := hok 2
  have h3 := hok 3
  simp only [phaseBCmds, inspectCmd, List.take_succ_cons, List.take_zero, List.append_nil,
    List.append_assoc, Nat.lt_irrefl, Nat.not_lt_zero, Nat.reduceLT, forall_true_left,
    forall_false, List.getD_eq_getElem?_getD, List.getElem?_cons_zero, List.getElem?_cons_succ,
    Option.getD_some] at h0 h1 h2 h3 hout
  simp only [SetupSandboxInterface, buildBridgeName_eq _ _ hid, buildTapName_eq _ _ hid,
    Exec.run_bind, run_liftOpt_some, run_liftOpt_none, run_RunCommand,
    Exec.run_pure, phaseBCmds, inspectCmd, index, List.get?_nil, List.take_succ_cons,
    List.take_zero, List.append_nil, List.append_assoc, List.singleton_append, List.cons_append,
    List.nil_append, *]

theorem SetupOVSInterface_shape (p : OVSPlugin) (pod cid : GoString) (port : Port) (env : Env)
    (tr : List Cmd) (hid : 11 ≤ port.ID.length) :
    (okBefore env tr (phaseACmds p pod port) 8 ∧
      (SetupOVSInterface p pod cid port env tr).2 = tr ++ phaseACmds p pod port) ∨
    ∃ k e, k < 8 ∧ okBefore env tr (phaseACmds p pod port) k ∧
      failsAt env tr (phaseACmds p pod port) k e ∧
      (SetupOVSInterface p pod cid port env tr).2 =
        tr ++ ((phaseACmds p pod port).take (k + 1) ++
          teardownCmds port.ID cid
            (pidSeen env (tr ++ (phaseACmds p pod port).take (k + 1)) port.ID cid)) := by
  rcases first_failure env tr (phaseACmds p pod port) 8 with hok | ⟨k, hk, hok, e, he⟩
  · exact Or.inl ⟨hok, (SetupOVSInterface_trace_ok p pod cid port env tr hid hok).1⟩
  · refine Or.inr ⟨k, e, hk, hok, he, ?_⟩
    rw [SetupOVSInterface_fail p pod cid port env tr e k hid hk hok he, List.append_assoc]

theorem phaseBCmds_take (port : Port) (cid ipcidr gateway ifName n1 n2 : GoString) (k : Nat)
    (hk : k ≤ 4) :
    (phaseBCmds port cid ipcidr gateway ifName n1).take k =
      (phaseBCmds port cid ipcidr gateway ifName n2).take k := by
  interval_cases k <;> rfl

theorem phaseBCmds_getD (port : Port) (cid ipcidr gateway ifName n1 n2 : GoString) (k : Nat)
    (hk : k < 4) :
    (phaseBCmds port cid ipcidr gateway ifName n1).getD k [] =
      (phaseBCmds port cid ipcidr gateway ifName n2).getD k [] := by
  interval_cases k <;> rfl

theorem SetupSandboxInterface_shape (p : OVSPlugin) (pod cid : GoString) (port : Port)
    (ipcidr gateway ifName : GoString) (env : Env) (tr : List Cmd)
    (hid : 11 ≤ port.ID.length) :
    ∃ netns : GoString,
      (netns = [] ∨ ∃ t l, l ∈ (env t (inspectCmd cid)).out ∧ netns = Trim l apostrophe) ∧
      ((okBefore env tr (phaseBCmds port cid ipcidr gateway ifName netns) 12 ∧
          (SetupSandboxInterface p pod cid port ipcidr gateway ifName env tr).2 =
            tr ++ phaseBCmds port cid ipcidr gateway ifName netns) ∨
        (okBefore env tr (phaseBCmds port cid ipcidr gateway ifName netns) 4 ∧
          (SetupSandboxInterface p pod cid port ipcidr gateway ifName env tr).2 =
            tr ++ (phaseBCmds port cid ipcidr gateway ifName netns).take 4) ∨
        ∃ k e, k < 12 ∧ okBefore env tr (phaseBCmds port cid ipcidr gateway ifName netns) k ∧
          failsAt env tr (phaseBCmds port cid ipcidr gateway ifName netns) k e ∧
          (SetupSandboxInterface p pod cid port ipcidr gateway ifName env tr).2 =
            tr ++ ((phaseBCmds port cid ipcidr gateway ifName netns).take (k + 1) ++
              teardownCmds port.ID cid
                (pidSeen env
                  (tr ++ (phaseBCmds port cid ipcidr gateway ifName netns).take (k + 1))
                  port.ID cid))) := by
  cases hout : (env (tr ++ (phaseBCmds port cid ipcidr gateway ifName []).take 3)
      (inspectCmd cid)).out with
  | nil =>
    refine ⟨[], Or.inl rfl, ?_⟩
    rcases first_failure env tr (phaseBCmds port cid ipcidr gateway ifName []) 4 with
      hok | ⟨k, hk, hok, e, he⟩
    · right; left
      refine ⟨hok, ?_⟩
      rw [SetupSandboxInterface_panic p pod cid port ipcidr gateway ifName [] env tr hid hok hout]
    · right; right
      refine ⟨k, e, by omega, hok, he, ?_⟩
      rw [SetupSandboxInterface_fail p pod cid port ipcidr gateway ifName [] env tr e k hid
        (by omega) hok he (fun h4 => absurd h4 (by omega)), List.append_assoc]
  | cons first rest =>
    have hout2 : (env (tr ++ (phaseBCmds port cid ipcidr gateway ifName
        (Trim first apostrophe)).take 3) (inspectCmd cid)).out = first :: rest := hout
    refine ⟨Trim first apostrophe,
      Or.inr ⟨tr ++ (phaseBCmds port cid ipcidr gateway ifName []).take 3, first, ?_, rfl⟩, ?_⟩
    · rw [hout]; exact List.mem_cons_self _ _
    rcases first_failure env tr
        (phaseBCmds port cid ipcidr gateway ifName (Trim first apostrophe)) 12 with
      hok | ⟨k, hk, hok, e, he⟩
    · left
      refine ⟨hok, ?_⟩
      rw [SetupSandboxInterface_ok p pod cid port ipcidr gateway ifName _ env tr hid hok
        ⟨first, rest, hout2, rfl⟩]
    · right; right
      refine ⟨k, e, hk, hok, he, ?_⟩
      rw [SetupSandboxInterface_fail p pod cid port ipcidr gateway ifName _ env tr e k hid
        hk hok he (fun _ => ⟨first, rest, hout2, rfl⟩), List.append_assoc]

theorem SetupOVSInterface_issued (p : OVSPlugin) (pod cid : GoString) (port : Port) (env : Env)
    (tr : List Cmd) (hid : 11 ≤ port.ID.length) :
    ∃ rest, (SetupOVSInterface p pod cid port env tr).2 = tr ++ rest ∧
      ∀ c, c ∈ rest → c ∈ phaseACmds p pod port ∨ ∃ pid, c ∈ teardownCmds port.ID cid pid := by
  rcases SetupOVSInterface_shape p pod cid port env tr hid with ⟨_, h⟩ | ⟨k, e, _, _, _, h⟩
  · exact ⟨_, h, fun c hc => Or.inl hc⟩
  · refine ⟨_, h, fun c hc => ?_⟩
    rcases List.mem_append.mp hc with h1 | h1
    · exact Or.inl (List.mem_of_mem_take h1)
    · exact Or.inr ⟨_, h1⟩

theorem SetupSandboxInterface_issued (p : OVSPlugin) (pod cid : GoString) (port : Port)
    (ipcidr gateway ifName : GoString) (env : Env) (tr : List Cmd)
    (hid : 11 ≤ port.ID.length) :
    ∃ (rest : List Cmd) (netns : GoString),
      (SetupSandboxInterface p pod cid port ipcidr gateway ifName env tr).2 = tr ++ rest ∧
      (netns = [] ∨ ∃ t l, l ∈ (env t (inspectCmd cid)).out ∧ netns = Trim l apostrophe) ∧
      ∀ c, c ∈ rest → c ∈ phaseBCmds port cid ipcidr gateway ifName netns ∨
        ∃ pid, c ∈ teardownCmds port.ID cid pid := by
  obtain ⟨netns, hns, hshape⟩ :=
    SetupSandboxInterface_shape p pod cid port ipcidr gateway ifName env tr hid
  rcases hshape with ⟨_, h⟩ | ⟨_, h⟩ | ⟨k, e, _, _, _, h⟩
  · exact ⟨_, netns, h, hns, fun c hc => Or.inl hc⟩
  · exact ⟨_, netns, h, hns, fun c hc => Or.inl (List.mem_of_mem_take hc)⟩
  · refine ⟨_, netns, h, hns, fun c hc => ?_⟩
    rcases List.mem_append.mp hc with h1 | h1
    · exact Or.inl (List.mem_of_mem_take h1)
    · exact Or.inr ⟨_, h1⟩

theorem SetupInterface_trace_cases (p : OVSPlugin) (pod cid : GoString) (port : Port)
    (ipcidr gateway ifName : GoString) (env : Env) (tr : List Cmd)
    (hid : 11 ≤ port.ID.length) :
    (SetupInterface p pod cid port ipcidr gateway ifName env tr).2 =
        (SetupOVSInterface p pod cid port env tr).2 ∨
      ((SetupOVSInterface p pod cid port env tr).2 = tr ++ phaseACmds p pod port ∧
        (SetupInterface p pod cid port ipcidr gateway ifName env tr).2 =
          (SetupSandboxInterface p pod cid port ipcidr gateway ifName env
            (tr ++ phaseACmds p pod port)).2) := by
  rcases first_failure env tr (phaseACmds p pod port) 8 with hok | ⟨k, hk, hok, e, he⟩
  · obtain ⟨htr, hout | ⟨br, hout⟩⟩ := SetupOVSInterface_trace_ok p pod cid port env tr hid hok
    · left
      cases hA : SetupOVSInterface p pod cid port env tr with
      | mk o t =>
        rw [hA] at hout
        simp only at hout
        subst hout
        simp only [SetupInterface, Exec.run_bind, hA]
    · right
      refine ⟨htr, ?_⟩
      cases hA : SetupOVSInterface p pod cid port env tr with
      | mk o t =>
        rw [hA] at hout htr
        simp only at hout htr
        subst hout htr
        simp only [SetupInterface, Exec.run_bind, hA, Exec.run_pure]
        cases hB : SetupSandboxInterface p pod cid port ipcidr gateway ifName env
            (tr ++ phaseACmds p pod port) with
        | mk oB tB =>
          cases oB with
          | panic => rfl
          | ret r =>
            obtain ⟨con, err⟩ := r
            cases err <;> rfl
  · left
    have hA := SetupOVSInterface_fail p pod cid port env tr e k hid hk hok he
    simp only [SetupInterface, Exec.run_bind, hA, Exec.run_pure]

theorem SetupInterface_issued (p : OVSPlugin) (pod cid : GoString) (port : Port)
    (ipcidr gateway ifName : GoString) (env : Env) (tr : List Cmd)
    (hid : 11 ≤ port.ID.length) :
    ∃ (rest : List Cmd) (netns : GoString),
      (SetupInterface p pod cid port ipcidr gateway ifName env tr).2 = tr ++ rest ∧
      (netns = [] ∨ ∃ t l, l ∈ (env t (inspectCmd cid)).out ∧ netns = Trim l apostrophe) ∧
      ∀ c, c ∈ rest → c ∈ phaseACmds p pod port ∨
        c ∈ phaseBCmds port cid ipcidr gateway ifName netns ∨
        ∃ pid, c ∈ teardownCmds port.ID cid pid := by
  rcases SetupInterface_trace_cases p pod cid port ipcidr gateway ifName env tr hid with
    h | ⟨hA, h⟩
  · obtain ⟨rest, hr, hc⟩ := SetupOVSInterface_issued p pod cid port env tr hid
    refine ⟨rest, [], h.trans hr, Or.inl rfl, fun c hcm => ?_⟩
    rcases hc c hcm with h1 | h1
    · exact Or.inl h1
    · exact Or.inr (Or.inr h1)
  · obtain ⟨rest, netns, hr, hns, hc⟩ := SetupSandboxInterface_issued p pod cid port ipcidr
      gateway ifName env (tr ++ phaseACmds p pod port) hid
    refine ⟨phaseACmds p pod port ++ rest, netns, ?_, hns, fun c hcm => ?_⟩
    · rw [h, hr, List.append_assoc]
    · rcases List.mem_append.mp hcm with h1 | h1
      · exact Or.inl h1
      · exact Or.inr (hc c h1)

/-! ## The arguments of the issued commands -/

theorem head?_append_of_head? {tag s : GoString} {b : UInt8} (h : tag.head? = some b) :
    (tag ++ s).head? = some b := by
  cases tag with
  | nil => exact absurd h (by simp)
  | cons x l => exact h

theorem tagged_head_ne_slash {tag s : GoString} {b : UInt8} (h : tag.head? = some b)
    (hb : b ≠ 47) : (tag ++ s).head? ≠ some 47 := by
  rw [head?_append_of_head? h]
  intro e
  exact hb (Option.some.inj e)

theorem derived_name_facts (P : GoString) (hP : 11 ≤ P.length) (a : GoString)
    (ha : a ∈ [qbrName P, tapName P, vifName P, qvbName P, qvoName P]) :
    a.length = 14 ∧ a.head? ≠ some 47 := by
  obtain ⟨t1, t2, t3, t4, t5⟩ := goStr_tag_length
  have h11 : (P.take 11).length = 11 := by rw [List.length_take]; omega
  simp only [List.mem_cons, List.mem_singleton, List.not_mem_nil, or_false] at ha
  unfold qbrName tapName vifName qvbName qvoName at ha
  rcases ha with rfl | rfl | rfl | rfl | rfl
  · exact ⟨by rw [List.length_append, h11, t1],
      tagged_head_ne_slash (b := 113) (by decide) (by decide)⟩
  · exact ⟨by rw [List.length_append, h11, t2],
      tagged_head_ne_slash (b := 116) (by decide) (by decide)⟩
  · exact ⟨by rw [List.length_append, h11, t3],
      tagged_head_ne_slash (b := 118) (by decide) (by decide)⟩
  · exact ⟨by rw [List.length_append, h11, t4],
      tagged_head_ne_slash (b := 113) (by decide) (by decide)⟩
  · exact ⟨by rw [List.length_append, h11, t5],
      tagged_head_ne_slash (b := 113) (by decide) (by decide)⟩

theorem derived_names_disjoint (P Q : GoString) (hne : P.take 11 ≠ Q.take 11) (a : GoString)
    (ha : a ∈ [qbrName P, tapName P, vifName P, qvbName P, qvoName P]) :
    a ∉ [qbrName Q, tapName Q, vifName Q, qvbName Q, qvoName Q] := by
  obtain ⟨t1, t2, t3, t4, t5⟩ := goStr_tag_length
  intro hy
  simp only [List.mem_cons, List.mem_singleton, List.not_mem_nil, or_false] at ha hy
  unfold qbrName tapName vifName qvbName qvoName at ha hy
  rcases ha with rfl | rfl | rfl | rfl | rfl <;>
  rcases hy with hy | hy | hy | hy | hy <;>
  exact hne (tagged_name_inj (by omega) hy)

theorem args_of_phaseA (p : OVSPlugin) (pod : GoString) (port : Port) :
    ∀ c, c ∈ phaseACmds p pod port → ∀ a, a ∈ c → a.length = 14 →
      a ∉ [qbrName port.ID, tapName port.ID, vifName port.ID, qvbName port.ID,
        qvoName port.ID] →
      a = p.IntegrationBridge := by
  have e1 : (goStr "external_ids:attached-mac=").length = 26 := by decide
  have e2 : (goStr "external_ids:iface-id=").length = 22 := by decide
  have e3 : (goStr "external_ids:vm-id=").length = 19 := by decide
  simp only [phaseACmds, List.forall_mem_cons, List.not_mem_nil, false_implies, implies_true,
    and_true]
  and_intros
  all_goals
    first
    | trivial
    | (intro hlen hnot
       first
       | rfl
       | exact absurd hlen (by decide)
       | (rw [List.length_append] at hlen; omega)
       | solve | (exfalso; apply hnot; simp))

theorem args_of_phaseB (port : Port) (cid ipcidr gateway ifName netns : GoString) :
    ∀ c, c ∈ phaseBCmds port cid ipcidr gateway ifName netns → ∀ a, a ∈ c → a.length = 14 →
      a ∉ [qbrName port.ID, tapName port.ID, vifName port.ID, qvbName port.ID,
        qvoName port.ID] →
      a.head? ≠ some 47 →
      a = ifName ∨ a = port.MACAddress ∨ a = cid ∨ a = ipcidr ∨ a = gateway ∨ a = netns := by
  have e3 : (goStr "/var/run/netns/").length = 15 := by decide
  have hproc : ∀ x y : GoString, (goStr "/proc/" ++ x ++ y).head? = some 47 :=
    fun x y => head?_append_of_head? (head?_append_of_head? (by decide))
  simp only [phaseBCmds, inspectCmd, List.forall_mem_cons, List.not_mem_nil, false_implies,
    implies_true, and_true]
  and_intros
  all_goals
    first
    | trivial
    | (intro hlen hnot hhead
       first
       | exact absurd hlen (by decide)
       | exact absurd (hproc _ _) hhead
       | (rw [List.length_append] at hlen; omega)
       | solve | (exfalso; apply hnot; simp)
       | solve | simp)

theorem args_of_teardown (portID cid : GoString) (pid : List GoString) :
    ∀ c, c ∈ teardownCmds portID cid pid → ∀ a, a ∈ c → a.length = 14 →
      a ∉ [qbrName portID, tapName portID, vifName portID, qvbName portID, qvoName portID] →
      a.head? ≠ some 47 → a = cid := by
  have e3 : (goStr "/var/run/netns/").length = 15 := by decide
  cases pid <;>
  simp only [teardownCmds, inspectCmd, List.cons_append, List.nil_append, List.forall_mem_cons,
    List.not_mem_nil, false_implies, implies_true, and_true] <;>
  and_intros <;>
  first
  | trivial
  | (intro hlen hnot hhead
     first
     | rfl
     | exact absurd hlen (by decide)
     | (rw [List.length_append] at hlen; omega)
     | solve | (exfalso; apply hnot; simp))

/-! ## The names in the issued commands -/

theorem names_in_teardown (portID cid : GoString) (pid : List GoString) :
    ∀ c, c ∈ teardownCmds portID cid pid →
      (∀ x, c = [goStr "brctl", goStr "addbr", x] → x = qbrName portID) ∧
      (c.get? 7 = some (goStr "add-port") → c.get? 9 = some (qvoName portID)) ∧
      (∀ x y, c = [goStr "ip", goStr "link", goStr "add", x, goStr "type", goStr "veth",
        goStr "peer", goStr "name", y] → x = tapName portID ∧ y = vifName portID) ∧
      (∀ x y, c = [goStr "brctl", goStr "addif", x, y] →
        x = qbrName portID ∧ y = tapName portID) ∧
      (∀ x, c = [goStr "brctl", goStr "delbr", x] → x = qbrName portID) ∧
      (∀ x, c = [goStr "ovs-vsctl", goStr "-vconsole:off", goStr "--if-exists",
        goStr "del-port", x] → x = qvoName portID) ∧
      (∀ x, c = [goStr "ip", goStr "link", goStr "delete", goStr "dev", x] →
        x = qvoName portID) ∧
      (∀ x, c = [goStr "ip", goStr "link", goStr "delete", x] → x = tapName portID) := by
  intro c hc
  cases pid with
  | nil =>
    simp only [teardownCmds, inspectCmd, List.append_nil, List.mem_cons, List.mem_singleton,
      List.not_mem_nil, or_false] at hc
    rcases hc with rfl | rfl | rfl | rfl | rfl | rfl | rfl <;>
    simp +decide +contextual
  | cons first more =>
    simp only [teardownCmds, inspectCmd, List.cons_append, List.nil_append, List.mem_cons,
      List.mem_singleton, List.not_mem_nil, or_false] at hc
    rcases hc with rfl | rfl | rfl | rfl | rfl | rfl | rfl | rfl <;>
    simp +decide +contextual

theorem names_in_phaseA (p : OVSPlugin) (pod : GoString) (port : Port) :
    ∀ c, c ∈ phaseACmds p pod port →
      (∀ x, c = [goStr "brctl", goStr "addbr", x] → x = qbrName port.ID) ∧
      (c.get? 7 = some (goStr "add-port") → c.get? 9 = some (qvoName port.ID)) ∧
      (∀ x, c = [goStr "brctl", goStr "delbr", x] → x = qbrName port.ID) ∧
      (∀ x, c = [goStr "ovs-vsctl", goStr "-vconsole:off", goStr "--if-exists",
        goStr "del-port", x] → x = qvoName port.ID) ∧
      (∀ x, c = [goStr "ip", goStr "link", goStr "delete", goStr "dev", x] →
        x = qvoName port.ID) ∧
      (∀ x, c = [goStr "ip", goStr "link", goStr "delete", x] → x = tapName port.ID) := by
  intro c hc
  simp only [phaseACmds, List.mem_cons, List.mem_singleton, List.not_mem_nil, or_false] at hc
  rcases hc with rfl | rfl | rfl | rfl | rfl | rfl | rfl | rfl <;>
  simp +decide +contextual

theorem names_in_phaseB (port : Port) (cid ipcidr gateway ifName netns : GoString) :
    ∀ c, c ∈ phaseBCmds port cid ipcidr gateway ifName netns →
      (∀ x y, c = [goStr "ip", goStr "link", goStr "add", x, goStr "type", goStr "veth",
        goStr "peer", goStr "name", y] → x = tapName port.ID ∧ y = vifName port.ID) ∧
      (∀ x y, c = [goStr "brctl", goStr "addif", x, y] →
        x = qbrName port.ID ∧ y = tapName port.ID) ∧
      (∀ x, c = [goStr "brctl", goStr "delbr", x] → x = qbrName port.ID) ∧
      (∀ x, c = [goStr "ovs-vsctl", goStr "-vconsole:off", goStr "--if-exists",
        goStr "del-port", x] → x = qvoName port.ID) ∧
      (∀ x, c = [goStr "ip", goStr "link", goStr "delete", goStr "dev", x] →
        x = qvoName port.ID) ∧
      (∀ x, c = [goStr "ip", goStr "link", goStr "delete", x] → x = tapName port.ID) := by
  intro c hc
  simp only [phaseBCmds, inspectCmd, List.mem_cons, List.mem_singleton, List.not_mem_nil,
    or_false] at hc
  rcases hc with rfl | rfl | rfl | rfl | rfl | rfl | rfl | rfl | rfl | rfl | rfl | rfl | rfl <;>
  simp +decide +contextual

/-! ## The position of a setup command in a run -/

theorem get?_after (t l : List Cmd) (n : Nat) : (t ++ l).get? (t.length + n) = l.get? n := by
  simp only [List.get?_eq_getElem?]
  rw [List.getElem?_append_right (Nat.le_add_right _ _), Nat.add_sub_cancel_left]

theorem get?_take_append (A T : List Cmd) (k j : Nat) (hj : j ≤ k) (hk : k < A.length) :
    (A.take (k + 1) ++ T).get? j = A.get? j := by
  simp only [List.get?_eq_getElem?]
  have hlen : (A.take (k + 1)).length = k + 1 := by rw [List.length_take]; omega
  rw [List.getElem?_append_left (by omega), List.getElem?_take_of_lt (by omega)]

theorem SetupOVSInterface_position (p : OVSPlugin) (pod cid : GoString) (port : Port)
    (env : Env) (tr : List Cmd) (j : Nat) (hid : 11 ≤ port.ID.length)
    (hok : okBefore env tr (phaseACmds p pod port) j) :
    (SetupOVSInterface p pod cid port env tr).2.get? (tr.length + j) =
      (phaseACmds p pod port).get? j := by
  rcases SetupOVSInterface_shape p pod cid port env tr hid with ⟨_, h⟩ | ⟨k, e, hk, _, hf, h⟩
  · rw [h, get?_after]
  · have hjk : j ≤ k := by
      by_contra hlt
      have := hok k (by omega)
      unfold failsAt at hf
      rw [this] at hf
      exact absurd hf (by simp)
    rw [h, get?_after, get?_take_append _ _ k j hjk (by rw [phaseACmds_length]; exact hk)]

theorem SetupSandboxInterface_position (p : OVSPlugin) (pod cid : GoString) (port : Port)
    (ipcidr gateway ifName : GoString) (env : Env) (tr : List Cmd) (j : Nat)
    (hid : 11 ≤ port.ID.length) (hj : j < 4)
    (hok : okBefore env tr (phaseBCmds port cid ipcidr gateway ifName []) j) :
    (SetupSandboxInterface p pod cid port ipcidr gateway ifName env tr).2.get? (tr.length + j) =
      (phaseBCmds port cid ipcidr gateway ifName []).get? j := by
  obtain ⟨netns, _, hshape⟩ :=
    SetupSandboxInterface_shape p pod cid port ipcidr gateway ifName env tr hid
  have hget : (phaseBCmds port cid ipcidr gateway ifName netns).get? j =
      (phaseBCmds port cid ipcidr gateway ifName []).get? j := by
    interval_cases j <;> rfl
  rcases hshape with ⟨_, h⟩ | ⟨_, h⟩ | ⟨k, e, hk, _, hf, h⟩
  · rw [h, get?_after, hget]
  · rw [h, get?_after, ← hget]
    simp only [List.get?_eq_getElem?]
    exact List.getElem?_take_of_lt hj
  · have hjk : j ≤ k := by
      by_contra hlt
      have hkj : k < j := by omega
      have := hok k hkj
      unfold failsAt at hf
      rw [phaseBCmds_take port cid ipcidr gateway ifName [] netns k (by omega),
        phaseBCmds_getD port cid ipcidr gateway ifName [] netns k (by omega)] at this
      rw [this] at hf
      exact absurd hf (by simp)
    rw [h, get?_after, get?_take_append _ _ k j hjk (by rw [phaseBCmds_length]; omega), hget]

/-! ## The claims -/

/-- C1 (rollback completeness).  For a port whose identifier has at least 11 bytes,
let step `k` (0..7 Phase A, 8..19 Phase B up to bringing the tap up) be the first
setup command that returns an error, all earlier ones having succeeded with
well-formed output (two lines and a second line of 32 bytes for `ip link show`,
a first line for the inspection, which names the namespace).  Then `SetupInterface`
issues exactly the setup commands up to step `k`, then the complete teardown
sequence for the same port, and returns nil descriptors with that very error,
whatever the teardown commands return; the teardown part is what a call of
`DestroyInterface` issues at that point. -/
theorem SetupInterface_rollback (p : OVSPlugin) (pod cid : GoString) (port : Port)
    (ipcidr gateway ifName netns : GoString) (env : Env) (tr : List Cmd) (e : GoError) (k : Nat)
    (hid : 11 ≤ port.ID.length) (hk : k < 20)
    (hok : okBefore env tr (setupCmds p pod cid port ipcidr gateway ifName netns) k)
    (hfail : failsAt env tr (setupCmds p pod cid port ipcidr gateway ifName netns) k e)
    (hmac : 8 ≤ k → ∃ line,
      (env (tr ++ (setupCmds p pod cid port ipcidr gateway ifName netns).take 7)
        ["ip", "link", "show", qbrName port.ID]).out.get? 1 = some line ∧ 32 ≤ line.length)
    (hpid : 12 ≤ k → ∃ first rest,
      (env (tr ++ (setupCmds p pod cid port ipcidr gateway ifName netns).take 11)
        (inspectCmd cid)).out = first :: rest ∧ netns = Trim first apostrophe) :
    SetupInterface p pod cid port ipcidr gateway ifName env tr =
      (Outcome.ret (none, none, some e),
        tr ++ (setupCmds p pod cid port ipcidr gateway ifName netns).take (k + 1) ++
          teardownCmds port.ID cid
            (pidSeen env (tr ++ (setupCmds p pod cid port ipcidr gateway ifName netns).take (k + 1))
              port.ID cid)) ∧
    DestroyInterface p pod cid port env
        (tr ++ (setupCmds p pod cid port ipcidr gateway ifName netns).take (k + 1)) =
      (Outcome.ret none,
        tr ++ (setupCmds p pod cid port ipcidr gateway ifName netns).take (k + 1) ++
          teardownCmds port.ID cid
            (pidSeen env (tr ++ (setupCmds p pod cid port ipcidr gateway ifName netns).take (k + 1))
              port.ID cid)) := by
  refine ⟨?_, run_DestroyInterface _ _ _ _ _ _ hid⟩
  unfold setupCmds at hok hfail hmac hpid ⊢
  have hlenA := phaseACmds_length p pod port
  by_cases hk8 : k < 8
  · have hA := SetupOVSInterface_fail p pod cid port env tr e k hid hk8
      (okBefore_left hok (by omega)) (failsAt_left hfail (by omega))
    have htake : (phaseACmds p pod port ++ phaseBCmds port cid ipcidr gateway ifName netns).take
        (k + 1) = (phaseACmds p pod port).take (k + 1) :=
      List.take_append_of_le_length (by omega)
    simp only [SetupInterface, Exec.run_bind, hA, htake, Exec.run_pure]
  · obtain ⟨j, rfl⟩ : ∃ j, k = (phaseACmds p pod port).length + j := ⟨k - 8, by omega⟩
    obtain ⟨line, hline, hlen⟩ := hmac (by omega)
    rw [List.take_append_of_le_length (by omega)] at hline
    have hA := SetupOVSInterface_ok p pod cid port env tr line hid
      (okBefore_left (okBefore_mono hok (by omega)) (by omega)) hline hlen
    have hpidB : 4 ≤ j → ∃ first rest,
        (env (tr ++ phaseACmds p pod port ++
          (phaseBCmds port cid ipcidr gateway ifName netns).take 3) (inspectCmd cid)).out
          = first :: rest ∧ netns = Trim first apostrophe := by
      intro hj
      obtain ⟨first, rest, h1, h2⟩ := hpid (by omega)
      refine ⟨first, rest, ?_, h2⟩
      have h11 : 11 = (phaseACmds p pod port).length + 3 := by omega
      rw [h11, List.take_append, ← List.append_assoc] at h1
      exact h1
    have hB := SetupSandboxInterface_fail p pod cid port ipcidr gateway ifName netns env
      (tr ++ phaseACmds p pod port) e j hid (by omega) (okBefore_right hok) (failsAt_right hfail)
      hpidB
    have htake : (phaseACmds p pod port ++ phaseBCmds port cid ipcidr gateway ifName netns).take
        ((phaseACmds p pod port).length + j + 1) =
        phaseACmds p pod port ++ (phaseBCmds port cid ipcidr gateway ifName netns).take (j + 1) := by
      rw [Nat.add_assoc, List.take_append]
    simp only [SetupInterface, Exec.run_bind, hA, hB, htake, Exec.run_pure, List.append_assoc]

/-- C1 at a sample input: the fourteenth setup command (moving the vif into the
namespace) is the first to fail. -/
theorem SetupInterface_rollback_witness :
    okBefore (envFailAt 13) []
      (setupCmds samplePlugin (goStr "pod") (goStr "cid") samplePort (goStr "10.0.0.2/24")
        (goStr "10.0.0.1") (goStr "eth0") (goStr "4242")) 13 ∧
    failsAt (envFailAt 13) []
      (setupCmds samplePlugin (goStr "pod") (goStr "cid") samplePort (goStr "10.0.0.2/24")
        (goStr "10.0.0.1") (goStr "eth0") (goStr "4242")) 13 sampleErr ∧
    (SetupInterface samplePlugin (goStr "pod") (goStr "cid") samplePort (goStr "10.0.0.2/24")
        (goStr "10.0.0.1") (goStr "eth0") (envFailAt 13) []).1 =
      Outcome.ret (none, none, some sampleErr) :=
  ⟨by decide, by decide,
    congrArg Prod.fst (SetupInterface_rollback samplePlugin (goStr "pod") (goStr "cid") samplePort
      (goStr "10.0.0.2/24") (goStr "10.0.0.1") (goStr "eth0") (goStr "4242") (envFailAt 13) []
      sampleErr 13 (by decide) (by decide) (by decide) (by decide)
      (fun _ => ⟨goStr "    link/ether fa:16:3e:aa:bb:cc brd ff:ff:ff:ff:ff:ff", by decide, by decide⟩)
      (fun _ => ⟨goStr "\x274242\x27",
        [goStr "    link/ether fa:16:3e:aa:bb:cc brd ff:ff:ff:ff:ff:ff"], by decide, by decide⟩)).1⟩

/-- C2 (teardown never fails and runs to completion).  For a port whose identifier
has at least 11 bytes, every sandbox handle and every environment, `DestroyInterface`
returns nil and issues, in this order and whatever each command returns: delete the
fabric port of qvo, set qvo down, delete qvo, set the local bridge down, delete the
local bridge, delete the tap, inspect the sandbox process; then it removes the
namespace symlink exactly when the inspection printed at least one line. -/
theorem DestroyInterface_completes (p : OVSPlugin) (pod cid : GoString) (port : Port)
    (env : Env) (tr : List Cmd) (hid : 11 ≤ port.ID.length) :
    DestroyInterface p pod cid port env tr =
      (Outcome.ret none,
        tr ++
          [ [goStr "ovs-vsctl", goStr "-vconsole:off", goStr "--if-exists", goStr "del-port",
              qvoName port.ID],
            [goStr "ip", goStr "link", goStr "set", goStr "dev", qvoName port.ID, goStr "down"],
            [goStr "ip", goStr "link", goStr "delete", goStr "dev", qvoName port.ID],
            [goStr "ip", goStr "link", goStr "set", goStr "dev", qbrName port.ID, goStr "down"],
            [goStr "brctl", goStr "delbr", qbrName port.ID],
            [goStr "ip", goStr "link", goStr "delete", tapName port.ID],
            [goStr "docker", goStr "inspect", goStr "-f",
              goStr "\x27\x7b\x7b.State.Pid\x7d\x7d\x27", cid] ] ++
          match (env
              (tr ++
                [ [goStr "ovs-vsctl", goStr "-vconsole:off", goStr "--if-exists",
                    goStr "del-port", qvoName port.ID],
                  [goStr "ip", goStr "link", goStr "set", goStr "dev", qvoName port.ID,
                    goStr "down"],
                  [goStr "ip", goStr "link", goStr "delete", goStr "dev", qvoName port.ID],
                  [goStr "ip", goStr "link", goStr "set", goStr "dev", qbrName port.ID,
                    goStr "down"],
                  [goStr "brctl", goStr "delbr", qbrName port.ID],
                  [goStr "ip", goStr "link", goStr "delete", tapName port.ID] ])
              [goStr "docker", goStr "inspect", goStr "-f",
                goStr "\x27\x7b\x7b.State.Pid\x7d\x7d\x27", cid]).out with
          | [] => []
          | first :: _ =>
            [[goStr "rm", goStr "-f", goStr "/var/run/netns/" ++ Trim first apostrophe]]) := by
  rw [run_DestroyInterface p pod cid port env tr hid, List.append_assoc]
  rfl

/-- C2 at a sample input: every teardown command fails and prints nothing, and
all seven are issued all the same. -/
theorem DestroyInterface_completes_witness :
    DestroyInterface samplePlugin (goStr "pod") (goStr "cid") samplePort envAllFail [] =
      (Outcome.ret none,
        [ [goStr "ovs-vsctl", goStr "-vconsole:off", goStr "--if-exists", goStr "del-port",
            goStr "qvo0123456789a"],
          [goStr "ip", goStr "link", goStr "set", goStr "dev", goStr "qvo0123456789a", goStr "down"],
          [goStr "ip", goStr "link", goStr "delete", goStr "dev", goStr "qvo0123456789a"],
          [goStr "ip", goStr "link", goStr "set", goStr "dev", goStr "qbr0123456789a", goStr "down"],
          [goStr "brctl", goStr "delbr", goStr "qbr0123456789a"],
          [goStr "ip", goStr "link", goStr "delete", goStr "tap0123456789a"],
          [goStr "docker", goStr "inspect", goStr "-f",
            goStr "\x27\x7b\x7b.State.Pid\x7d\x7d\x27", goStr "cid"] ]) :=
  (DestroyInterface_completes samplePlugin (goStr "pod") (goStr "cid") samplePort envAllFail []
    (by decide)).trans (by decide)

/-- C3 (the code at the failing inputs).  When every command succeeds and
`ip link show` prints a single line, `SetupInterface` panics after the eight
Phase A commands; when the inspection of the sandbox process succeeds and prints
no line, it panics after Phase A and the first four Phase B commands.  In both
runs no teardown command is issued and nothing is returned. -/
theorem SetupInterface_panics_on_short_output :
    SetupInterface samplePlugin (goStr "pod") (goStr "cid") samplePort (goStr "10.0.0.2/24")
        (goStr "10.0.0.1") (goStr "eth0") envSilent [] =
      (Outcome.panic, phaseACmds samplePlugin (goStr "pod") samplePort) ∧
    SetupInterface samplePlugin (goStr "pod") (goStr "cid") samplePort (goStr "10.0.0.2/24")
        (goStr "10.0.0.1") (goStr "eth0") envNoPid [] =
      (Outcome.panic, phaseACmds samplePlugin (goStr "pod") samplePort ++
        (phaseBCmds samplePort (goStr "cid") (goStr "10.0.0.2/24") (goStr "10.0.0.1")
          (goStr "eth0") []).take 4) := by
  constructor <;> decide

/-- C4 (name derivation, identifiers of at least 11 bytes).  Each of the five
derived names is its three-letter tag followed by the first 11 bytes of the
port identifier, has length exactly 14, and is the same for every receiver:
it depends on the identifier alone. -/
theorem build_names_of_long_id (p : OVSPlugin) (P : GoString) (h : 11 ≤ P.length) :
    buildBridgeName p P = some (goStr "qbr" ++ P.take 11) ∧
    buildTapName p P = some (goStr "tap" ++ P.take 11, goStr "vif" ++ P.take 11) ∧
    buildVethName p P = some (goStr "qvb" ++ P.take 11, goStr "qvo" ++ P.take 11) ∧
    (goStr "qbr" ++ P.take 11).length = 14 ∧
    (goStr "tap" ++ P.take 11).length = 14 ∧
    (goStr "vif" ++ P.take 11).length = 14 ∧
    (goStr "qvb" ++ P.take 11).length = 14 ∧
    (goStr "qvo" ++ P.take 11).length = 14 ∧
    ∀ q : OVSPlugin, buildBridgeName q P = buildBridgeName p P ∧
      buildTapName q P = buildTapName p P ∧ buildVethName q P = buildVethName p P := by
  have ht := goStr_tag_length
  have h11 : (P.take 11).length = 11 := by rw [List.length_take]; omega
  refine ⟨buildBridgeName_eq p P h, buildTapName_eq p P h, buildVethName_eq p P h,
    ?_, ?_, ?_, ?_, ?_, fun q => ⟨rfl, rfl, rfl⟩⟩ <;>
  rw [List.length_append, h11] <;> omega

/-- C4 at a sample identifier of 16 bytes. -/
theorem build_names_of_long_id_witness :
    buildBridgeName samplePlugin (goStr "0123456789abcdef") = some (goStr "qbr0123456789a") ∧
    buildTapName samplePlugin (goStr "0123456789abcdef") =
      some (goStr "tap0123456789a", goStr "vif0123456789a") ∧
    buildVethName samplePlugin (goStr "0123456789abcdef") =
      some (goStr "qvb0123456789a", goStr "qvo0123456789a") :=
  have h := build_names_of_long_id samplePlugin (goStr "0123456789abcdef") (by decide)
  ⟨h.1.trans (by decide), h.2.1.trans (by decide), h.2.2.1.trans (by decide)⟩

/-- C5 (the claim fails for short identifiers).  For the empty identifier and for
the three-byte identifier `abc` the slice bound 14 is out of range: no naming
function returns a name, in particular not the tag followed by the identifier. -/
theorem build_names_short_id_panics :
    buildBridgeName samplePlugin [] = none ∧
    buildBridgeName samplePlugin [] ≠ some ((goStr "qbr" ++ []).take 14) ∧
    buildTapName samplePlugin (goStr "abc") = none ∧
    buildVethName samplePlugin (goStr "abc") = none := by decide

/-- C5 (amended).  For every port identifier of at least 11 bytes the three naming
functions succeed and each derived name is the role tag followed by the
identifier, cut down to 14 bytes; it has at most 14 bytes, and when tag and
identifier together have 14 bytes or fewer it is the tag followed by the whole
identifier. -/
theorem build_names_truncate (p : OVSPlugin) (P : GoString) (h : 11 ≤ P.length) :
    buildBridgeName p P = some ((goStr "qbr" ++ P).take 14) ∧
    buildTapName p P = some ((goStr "tap" ++ P).take 14, (goStr "vif" ++ P).take 14) ∧
    buildVethName p P = some ((goStr "qvb" ++ P).take 14, (goStr "qvo" ++ P).take 14) ∧
    (∀ tag : GoString, ((tag ++ P).take 14).length ≤ 14) ∧
    (∀ tag : GoString, (tag ++ P).length ≤ 14 → (tag ++ P).take 14 = tag ++ P) := by
  have ht := goStr_tag_length
  have hlen : ∀ tag : GoString, tag.length = 3 → 14 ≤ (tag ++ P).length := by
    intro tag h3; rw [List.length_append]; omega
  have hs : ∀ tag : GoString, tag.length = 3 →
      sliceTo (tag ++ P) 14 = some ((tag ++ P).take 14) := by
    intro tag h3; simp only [sliceTo, hlen tag h3, if_true]
  refine ⟨?_, ?_, ?_, ?_, ?_⟩
  · simp only [buildBridgeName, hs _ ht.1]
  · simp only [buildTapName, hs _ ht.2.1, hs _ ht.2.2.1]; rfl
  · simp only [buildVethName, hs _ ht.2.2.2.1, hs _ ht.2.2.2.2]; rfl
  · intro tag; rw [List.length_take]; omega
  · intro tag hle; exact List.take_of_length_le hle

/-- C5 (amended) at identifiers of 11 and of 16 bytes. -/
theorem build_names_truncate_witness :
    buildBridgeName samplePlugin (goStr "0123456789a") = some (goStr "qbr0123456789a") ∧
    buildBridgeName samplePlugin (goStr "0123456789abcdef") = some (goStr "qbr0123456789a") :=
  ⟨(build_names_truncate samplePlugin (goStr "0123456789a") (by decide)).1.trans (by decide),
   (build_names_truncate samplePlugin (goStr "0123456789abcdef") (by decide)).1.trans (by decide)⟩

/-- C6 (the claim fails in two ways).  First, two distinct identifiers of 16 bytes
that agree in their first 11 bytes get the same five device names, and teardown
for the two ports issues the same commands.  Second, for two identifiers that
differ already in their first byte, the commands of `SetupInterface` for the two
ports still name common devices: both attach to the integration bridge `br-int`
and both issue the very command that sets the interface `eth0` up. -/
theorem distinct_ids_share_names :
    goStr "0123456789abcdef" ≠ goStr "0123456789aXYZ00" ∧
    11 ≤ (goStr "0123456789abcdef").length ∧ 11 ≤ (goStr "0123456789aXYZ00").length ∧
    deviceNames samplePlugin (goStr "0123456789abcdef") =
      deviceNames samplePlugin (goStr "0123456789aXYZ00") ∧
    buildBridgeName samplePlugin (goStr "0123456789abcdef") = some (goStr "qbr0123456789a") ∧
    buildBridgeName samplePlugin (goStr "0123456789aXYZ00") = some (goStr "qbr0123456789a") ∧
    (DestroyInterface samplePlugin (goStr "pod") (goStr "cid")
        { ID := goStr "0123456789abcdef", MACAddress := goStr "fa:16:3e:00:00:01" } envOK []).2 =
      (DestroyInterface samplePlugin (goStr "pod") (goStr "cid")
        { ID := goStr "0123456789aXYZ00", MACAddress := goStr "fa:16:3e:00:00:01" } envOK []).2 ∧
    (goStr "0123456789abcdef").take 11 ≠ (goStr "1123456789abcdef").take 11 ∧
    (∃ cP cQ : Cmd,
      (SetupInterface samplePlugin (goStr "pod-a") (goStr "cid-a")
        { ID := goStr "0123456789abcdef", MACAddress := goStr "fa:16:3e:00:00:01" }
        (goStr "10.0.0.2/24") (goStr "10.0.0.1") (goStr "eth0") envOK []).2.get? 6 = some cP ∧
      (SetupInterface samplePlugin (goStr "pod-b") (goStr "cid-b")
        { ID := goStr "1123456789abcdef", MACAddress := goStr "fa:16:3e:00:00:02" }
        (goStr "10.0.0.3/24") (goStr "10.0.0.1") (goStr "eth0") envOK []).2.get? 6 = some cQ ∧
      goStr "br-int" ∈ cP ∧ goStr "br-int" ∈ cQ) ∧
    [goStr "ip", goStr "netns", goStr "exec", goStr "4242", goStr "ip", goStr "link",
        goStr "set", goStr "eth0", goStr "up"] ∈
      (SetupInterface samplePlugin (goStr "pod-a") (goStr "cid-a")
        { ID := goStr "0123456789abcdef", MACAddress := goStr "fa:16:3e:00:00:01" }
        (goStr "10.0.0.2/24") (goStr "10.0.0.1") (goStr "eth0") envOK []).2 ∧
    [goStr "ip", goStr "netns", goStr "exec", goStr "4242", goStr "ip", goStr "link",
        goStr "set", goStr "eth0", goStr "up"] ∈
      (SetupInterface samplePlugin (goStr "pod-b") (goStr "cid-b")
        { ID := goStr "1123456789abcdef", MACAddress := goStr "fa:16:3e:00:00:02" }
        (goStr "10.0.0.3/24") (goStr "10.0.0.1") (goStr "eth0") envOK []).2 := by
  refine ⟨by decide, by decide, by decide, by decide, by decide, by decide, by decide,
    by decide, ⟨_, _, rfl, rfl, by decide, by decide⟩, by decide, by decide⟩

/-- C6 (amended).  For two port identifiers `P` and `Q` of at least 11 bytes whose
first 11 bytes differ, the five device names derived for `P` (bridge, tap, vif,
qvb, qvo) are disjoint from the five derived for `Q`; hence, in every
environment, a device derived for `P` is named by (is an argument of) a command
that `SetupInterface` issues for `Q` only where the caller or the environment
hands that very string in, as integration bridge, requested interface name, MAC
address, container id, address, gateway or namespace name printed by the
inspection; and by a command that `DestroyInterface` issues for `Q` only where
it is handed in as container id.  The roles of `P` and `Q` can be exchanged. -/
theorem deviceNames_disjoint (p : OVSPlugin) (P Q : GoString) (hP : 11 ≤ P.length)
    (hQ : 11 ≤ Q.length) (hne : P.take 11 ≠ Q.take 11) :
    ∃ nP nQ : List GoString, deviceNames p P = some nP ∧ deviceNames p Q = some nQ ∧
      nP.length = 5 ∧ nQ.length = 5 ∧ (∀ x, x ∈ nP → x ∉ nQ) ∧
      (∀ (pQ : OVSPlugin) (pod cid mac ipcidr gateway ifName : GoString) (env : Env)
          (tr : List Cmd) (c : Cmd) (a : GoString),
        c ∈ (SetupInterface pQ pod cid { ID := Q, MACAddress := mac } ipcidr gateway ifName
          env tr).2.drop tr.length → a ∈ c → a ∈ nP →
        a = pQ.IntegrationBridge ∨ a = ifName ∨ a = mac ∨ a = cid ∨ a = ipcidr ∨
          a = gateway ∨ ∃ t l, l ∈ (env t (inspectCmd cid)).out ∧ a = Trim l apostrophe) ∧
      (∀ (pQ : OVSPlugin) (pod cid mac : GoString) (env : Env) (tr : List Cmd) (c : Cmd)
          (a : GoString),
        c ∈ (DestroyInterface pQ pod cid { ID := Q, MACAddress := mac } env tr).2.drop
          tr.length → a ∈ c → a ∈ nP → a = cid) := by
  refine ⟨[qbrName P, tapName P, vifName P, qvbName P, qvoName P],
    [qbrName Q, tapName Q, vifName Q, qvbName Q, qvoName Q], ?_, ?_, rfl, rfl,
    derived_names_disjoint P Q hne, ?_, ?_⟩
  · simp [deviceNames, buildBridgeName_eq p P hP, buildTapName_eq p P hP, buildVethName_eq p P hP]
  · simp [deviceNames, buildBridgeName_eq p Q hQ, buildTapName_eq p Q hQ, buildVethName_eq p Q hQ]
  · intro pQ pod cid mac ipcidr gateway ifName env tr c a hc hac haP
    obtain ⟨hlen, hhead⟩ := derived_name_facts P hP a haP
    have hnot := derived_names_disjoint P Q hne a haP
    obtain ⟨rest, netns, htr, hns, hall⟩ := SetupInterface_issued pQ pod cid
      { ID := Q, MACAddress := mac } ipcidr gateway ifName env tr hQ
    rw [htr, List.drop_left] at hc
    rcases hall c hc with h | h | ⟨pid, h⟩
    · exact Or.inl (args_of_phaseA pQ pod _ c h a hac hlen hnot)
    · rcases args_of_phaseB _ cid ipcidr gateway ifName netns c h a hac hlen hnot hhead with
        h1 | h1 | h1 | h1 | h1 | h1
      · exact Or.inr (Or.inl h1)
      · exact Or.inr (Or.inr (Or.inl h1))
      · exact Or.inr (Or.inr (Or.inr (Or.inl h1)))
      · exact Or.inr (Or.inr (Or.inr (Or.inr (Or.inl h1))))
      · exact Or.inr (Or.inr (Or.inr (Or.inr (Or.inr (Or.inl h1)))))
      · rcases hns with h0 | ⟨t, l, hl, hnl⟩
        · rw [h1, h0] at hlen; exact absurd hlen (by decide)
        · exact Or.inr (Or.inr (Or.inr (Or.inr (Or.inr (Or.inr ⟨t, l, hl, h1.trans hnl⟩)))))
    · exact Or.inr (Or.inr (Or.inr (Or.inl
        (args_of_teardown Q cid pid c h a hac hlen hnot hhead))))
  · intro pQ pod cid mac env tr c a hc hac haP
    obtain ⟨hlen, hhead⟩ := derived_name_facts P hP a haP
    have hnot := derived_names_disjoint P Q hne a haP
    rw [run_DestroyInterface pQ pod cid { ID := Q, MACAddress := mac } env tr hQ,
      List.drop_left] at hc
    exact args_of_teardown Q cid _ c hc a hac hlen hnot hhead

/-- C6 (amended) at two identifiers that differ in their first byte: the bridge
derived for the one is named in no command that a successful `SetupInterface`
issues for the other. -/
theorem deviceNames_disjoint_witness :
    deviceNames samplePlugin (goStr "0123456789abcdef") ≠ none ∧
    ∀ c, c ∈ (SetupInterface samplePlugin (goStr "pod-b") (goStr "cid-b")
        { ID := goStr "1123456789abcdef", MACAddress := goStr "fa:16:3e:00:00:02" }
        (goStr "10.0.0.3/24") (goStr "10.0.0.1") (goStr "eth0") envOK []).2 →
      goStr "qbr0123456789a" ∉ c := by
  refine ⟨by decide, ?_⟩
  obtain ⟨nP, nQ, h1, _, _, _, _, hsetup, _⟩ :=
    deviceNames_disjoint samplePlugin (goStr "0123456789abcdef") (goStr "1123456789abcdef")
      (by decide) (by decide) (by decide)
  have hn : nP = [goStr "qbr0123456789a", goStr "tap0123456789a", goStr "vif0123456789a",
      goStr "qvb0123456789a", goStr "qvo0123456789a"] :=
    Option.some.inj (h1.symm.trans (by decide))
  intro c hc hmem
  have h := hsetup samplePlugin (goStr "pod-b") (goStr "cid-b") (goStr "fa:16:3e:00:00:02")
    (goStr "10.0.0.3/24") (goStr "10.0.0.1") (goStr "eth0") envOK [] c (goStr "qbr0123456789a")
    (by simpa using hc) hmem (by rw [hn]; exact List.mem_cons_self _ _)
  rcases h with h | h | h | h | h | h | ⟨t, l, hl, h⟩
  · exact absurd h (by decide)
  · exact absurd h (by decide)
  · exact absurd h (by decide)
  · exact absurd h (by decide)
  · exact absurd h (by decide)
  · exact absurd h (by decide)
  · have hl2 : l ∈ sampleLines := hl
    simp only [sampleLines, List.mem_cons, List.mem_singleton, List.not_mem_nil, or_false] at hl2
    rcases hl2 with rfl | rfl
    · exact absurd h (by decide)
    · exact absurd h (by decide)

/-- C7 (the claim fails).  When `brctl addbr` fails because the bridge already
exists and every other command succeeds, `SetupOVSInterface` stops after the
second command, runs the whole teardown, which sets the bridge down and deletes
it, and returns a nil descriptor with the error. -/
theorem SetupOVSInterface_existing_bridge_not_reused :
    SetupOVSInterface samplePlugin (goStr "pod") (goStr "cid") samplePort envBridgeExists [] =
      (Outcome.ret (none, some sampleErr),
        [ [goStr "ip", goStr "link", goStr "add", goStr "qvb0123456789a", goStr "type",
            goStr "veth", goStr "peer", goStr "name", goStr "qvo0123456789a"],
          [goStr "brctl", goStr "addbr", goStr "qbr0123456789a"],
          [goStr "ovs-vsctl", goStr "-vconsole:off", goStr "--if-exists", goStr "del-port",
            goStr "qvo0123456789a"],
          [goStr "ip", goStr "link", goStr "set", goStr "dev", goStr "qvo0123456789a", goStr "down"],
          [goStr "ip", goStr "link", goStr "delete", goStr "dev", goStr "qvo0123456789a"],
          [goStr "ip", goStr "link", goStr "set", goStr "dev", goStr "qbr0123456789a", goStr "down"],
          [goStr "brctl", goStr "delbr", goStr "qbr0123456789a"],
          [goStr "ip", goStr "link", goStr "delete", goStr "tap0123456789a"],
          [goStr "docker", goStr "inspect", goStr "-f",
            goStr "\x27\x7b\x7b.State.Pid\x7d\x7d\x27", goStr "cid"],
          [goStr "rm", goStr "-f", goStr "/var/run/netns/4242"] ]) := by
  decide

/-- C7 (amended).  For a port whose identifier has at least 11 bytes, if the
creation of the veth pair succeeds and the bridge-creation command returns an
error, for whatever reason, `SetupOVSInterface` issues no further setup command,
issues the complete teardown sequence for the port (which sets the bridge of
that name down and deletes it) and returns a nil descriptor with that error. -/
theorem SetupOVSInterface_addbr_error (p : OVSPlugin) (pod cid : GoString) (port : Port)
    (env : Env) (tr : List Cmd) (e : GoError) (hid : 11 ≤ port.ID.length)
    (hadd : (env tr [goStr "ip", goStr "link", goStr "add", qvbName port.ID, goStr "type",
      goStr "veth", goStr "peer", goStr "name", qvoName port.ID]).err = none)
    (hbr : (env (tr ++ [[goStr "ip", goStr "link", goStr "add", qvbName port.ID, goStr "type",
      goStr "veth", goStr "peer", goStr "name", qvoName port.ID]])
      [goStr "brctl", goStr "addbr", qbrName port.ID]).err = some e) :
    SetupOVSInterface p pod cid port env tr =
      (Outcome.ret (none, some e),
        tr ++ [ [goStr "ip", goStr "link", goStr "add", qvbName port.ID, goStr "type",
                  goStr "veth", goStr "peer", goStr "name", qvoName port.ID],
                [goStr "brctl", goStr "addbr", qbrName port.ID] ] ++
          teardownCmds port.ID cid
            (pidSeen env
              (tr ++ [ [goStr "ip", goStr "link", goStr "add", qvbName port.ID, goStr "type",
                          goStr "veth", goStr "peer", goStr "name", qvoName port.ID],
                       [goStr "brctl", goStr "addbr", qbrName port.ID] ])
              port.ID cid)) ∧
    [goStr "brctl", goStr "delbr", qbrName port.ID] ∈ teardownCmds port.ID cid
      (pidSeen env
        (tr ++ [ [goStr "ip", goStr "link", goStr "add", qvbName port.ID, goStr "type",
                    goStr "veth", goStr "peer", goStr "name", qvoName port.ID],
                 [goStr "brctl", goStr "addbr", qbrName port.ID] ])
        port.ID cid) := by
  refine ⟨?_, ?_⟩
  · have hok : okBefore env tr (phaseACmds p pod port) 1 := by
      intro i hi
      obtain rfl : i = 0 := by omega
      simpa [phaseACmds] using hadd
    exact SetupOVSInterface_fail p pod cid port env tr e 1 hid (by omega) hok hbr
  · simp [teardownCmds]

/-- C7 (amended) at the sample port, the bridge existing already. -/
theorem SetupOVSInterface_addbr_error_witness :
    (SetupOVSInterface samplePlugin (goStr "pod") (goStr "cid") samplePort envBridgeExists []).1 =
      Outcome.ret (none, some sampleErr) :=
  congrArg Prod.fst (SetupOVSInterface_addbr_error samplePlugin (goStr "pod") (goStr "cid")
    samplePort envBridgeExists [] sampleErr (by decide) (by decide) (by decide)).1

/-- C8 (setup and teardown agree on device names).  For a port whose identifier
has at least 11 bytes there are a bridge name, a qvo name and a tap name, the
ones the naming functions derive, such that, in every environment and from
every trace:
* every `brctl addbr` that `SetupOVSInterface` issues creates that bridge, and it
  is issued, as the second command, as soon as the first command succeeds; the
  command that adds a port to the integration bridge adds that qvo, and it is
  issued, as the seventh command, as soon as the first six succeed;
* the first command of `SetupSandboxInterface` creates that tap, every
  `brctl addif` it issues attaches that tap to that bridge, and it is issued, as
  the second command, as soon as the first command succeeds;
* `DestroyInterface` removes the fabric port of that qvo, deletes that qvo, sets
  that bridge down, deletes it with `brctl delbr` and deletes that tap;
* and every `brctl delbr`, `del-port`, `ip link delete dev` and `ip link delete`
  issued by any of the three, teardown after a failed setup included, names
  that bridge, that qvo, that qvo and that tap. -/
theorem setup_teardown_same_names (p : OVSPlugin) (pod cid : GoString) (port : Port)
    (ipcidr gateway ifName : GoString) (env : Env) (trA trB trD : List Cmd)
    (hid : 11 ≤ port.ID.length) :
    ∃ bridge qvb qvo tap vif : GoString,
      buildBridgeName p port.ID = some bridge ∧
      buildVethName p port.ID = some (qvb, qvo) ∧
      buildTapName p port.ID = some (tap, vif) ∧
      (∀ c, c ∈ (SetupOVSInterface p pod cid port env trA).2.drop trA.length →
        (∀ x, c = [goStr "brctl", goStr "addbr", x] → x = bridge) ∧
        (c.get? 7 = some (goStr "add-port") → c.get? 9 = some qvo) ∧
        (∀ x, c = [goStr "brctl", goStr "delbr", x] → x = bridge) ∧
        (∀ x, c = [goStr "ovs-vsctl", goStr "-vconsole:off", goStr "--if-exists",
          goStr "del-port", x] → x = qvo) ∧
        (∀ x, c = [goStr "ip", goStr "link", goStr "delete", goStr "dev", x] → x = qvo) ∧
        (∀ x, c = [goStr "ip", goStr "link", goStr "delete", x] → x = tap)) ∧
      ((env trA [goStr "ip", goStr "link", goStr "add", qvb, goStr "type", goStr "veth",
          goStr "peer", goStr "name", qvo]).err = none →
        (SetupOVSInterface p pod cid port env trA).2.get? (trA.length + 1) =
          some [goStr "brctl", goStr "addbr", bridge]) ∧
      (okBefore env trA (phaseACmds p pod port) 6 →
        (SetupOVSInterface p pod cid port env trA).2.get? (trA.length + 6) =
          some [goStr "ovs-vsctl", goStr "-vconsole:off", goStr "--", goStr "--if-exists",
            goStr "del-port", qvo, goStr "--", goStr "add-port", p.IntegrationBridge, qvo,
            goStr "--", goStr "set", goStr "Interface", qvo,
            goStr "external_ids:attached-mac=" ++ port.MACAddress,
            goStr "external_ids:iface-id=" ++ port.ID,
            goStr "external_ids:vm-id=" ++ pod,
            goStr "external_ids:iface-status=active"]) ∧
      (∀ c, c ∈ (SetupSandboxInterface p pod cid port ipcidr gateway ifName env trB).2.drop
          trB.length →
        (∀ x y, c = [goStr "ip", goStr "link", goStr "add", x, goStr "type", goStr "veth",
          goStr "peer", goStr "name", y] → x = tap ∧ y = vif) ∧
        (∀ x y, c = [goStr "brctl", goStr "addif", x, y] → x = bridge ∧ y = tap) ∧
        (∀ x, c = [goStr "brctl", goStr "delbr", x] → x = bridge) ∧
        (∀ x, c = [goStr "ovs-vsctl", goStr "-vconsole:off", goStr "--if-exists",
          goStr "del-port", x] → x = qvo) ∧
        (∀ x, c = [goStr "ip", goStr "link", goStr "delete", goStr "dev", x] → x = qvo) ∧
        (∀ x, c = [goStr "ip", goStr "link", goStr "delete", x] → x = tap)) ∧
      (SetupSandboxInterface p pod cid port ipcidr gateway ifName env trB).2.get? trB.length =
        some [goStr "ip", goStr "link", goStr "add", tap, goStr "type", goStr "veth",
          goStr "peer", goStr "name", vif] ∧
      ((env trB [goStr "ip", goStr "link", goStr "add", tap, goStr "type", goStr "veth",
          goStr "peer", goStr "name", vif]).err = none →
        (SetupSandboxInterface p pod cid port ipcidr gateway ifName env trB).2.get?
          (trB.length + 1) = some [goStr "brctl", goStr "addif", bridge, tap]) ∧
      (∀ c, c ∈ (DestroyInterface p pod cid port env trD).2.drop trD.length →
        (∀ x, c = [goStr "brctl", goStr "delbr", x] → x = bridge) ∧
        (∀ x, c = [goStr "ovs-vsctl", goStr "-vconsole:off", goStr "--if-exists",
          goStr "del-port", x] → x = qvo) ∧
        (∀ x, c = [goStr "ip", goStr "link", goStr "delete", goStr "dev", x] → x = qvo) ∧
        (∀ x, c = [goStr "ip", goStr "link", goStr "delete", x] → x = tap)) ∧
      (DestroyInterface p pod cid port env trD).2.get? trD.length =
        some [goStr "ovs-vsctl", goStr "-vconsole:off", goStr "--if-exists", goStr "del-port",
          qvo] ∧
      (DestroyInterface p pod cid port env trD).2.get? (trD.length + 2) =
        some [goStr "ip", goStr "link", goStr "delete", goStr "dev", qvo] ∧
      (DestroyInterface p pod cid port env trD).2.get? (trD.length + 3) =
        some [goStr "ip", goStr "link", goStr "set", goStr "dev", bridge, goStr "down"] ∧
      (DestroyInterface p pod cid port env trD).2.get? (trD.length + 4) =
        some [goStr "brctl", goStr "delbr", bridge] ∧
      (DestroyInterface p pod cid port env trD).2.get? (trD.length + 5) =
        some [goStr "ip", goStr "link", goStr "delete", tap] := by
  refine ⟨qbrName port.ID, qvbName port.ID, qvoName port.ID, tapName port.ID, vifName port.ID,
    buildBridgeName_eq p _ hid, buildVethName_eq p _ hid, buildTapName_eq p _ hid,
    ?_, ?_, ?_, ?_, ?_, ?_, ?_, ?_⟩
  · intro c hc
    obtain ⟨rest, hr, hall⟩ := SetupOVSInterface_issued p pod cid port env trA hid
    rw [hr, List.drop_left] at hc
    rcases hall c hc with h | ⟨pid, h⟩
    · exact names_in_phaseA p pod port c h
    · obtain ⟨h1, h2, _, _, h5, h6, h7, h8⟩ := names_in_teardown port.ID cid pid c h
      exact ⟨h1, h2, h5, h6, h7, h8⟩
  · intro h0
    have hok : okBefore env trA (phaseACmds p pod port) 1 := by
      intro i hi
      obtain rfl : i = 0 := by omega
      simpa [phaseACmds] using h0
    rw [SetupOVSInterface_position p pod cid port env trA 1 hid hok]
    rfl
  · intro hok
    rw [SetupOVSInterface_position p pod cid port env trA 6 hid hok]
    rfl
  · intro c hc
    obtain ⟨rest, netns, hr, _, hall⟩ :=
      SetupSandboxInterface_issued p pod cid port ipcidr gateway ifName env trB hid
    rw [hr, List.drop_left] at hc
    rcases hall c hc with h | ⟨pid, h⟩
    · exact names_in_phaseB port cid ipcidr gateway ifName netns c h
    · obtain ⟨_, _, h3, h4, h5, h6, h7, h8⟩ := names_in_teardown port.ID cid pid c h
      exact ⟨h3, h4, h5, h6, h7, h8⟩
  · have hok : okBefore env trB (phaseBCmds port cid ipcidr gateway ifName []) 0 :=
      fun i hi => absurd hi (Nat.not_lt_zero i)
    have := SetupSandboxInterface_position p pod cid port ipcidr gateway ifName env trB 0 hid
      (by omega) hok
    rw [Nat.add_zero] at this
    rw [this]
    rfl
  · intro h0
    have hok : okBefore env trB (phaseBCmds port cid ipcidr gateway ifName []) 1 := by
      intro i hi
      obtain rfl : i = 0 := by omega
      simpa [phaseBCmds] using h0
    rw [SetupSandboxInterface_position p pod cid port ipcidr gateway ifName env trB 1 hid
      (by omega) hok]
    rfl
  · intro c hc
    rw [run_DestroyInterface p pod cid port env trD hid, List.drop_left] at hc
    obtain ⟨_, _, _, _, h5, h6, h7, h8⟩ := names_in_teardown port.ID cid _ c hc
    exact ⟨h5, h6, h7, h8⟩
  · rw [run_DestroyInterface p pod cid port env trD hid]
    have h0 : ∀ (t l : List Cmd), (t ++ l).get? t.length = l.get? 0 := fun t l => get?_after t l 0
    simp only [get?_after, h0]
    exact ⟨rfl, rfl, rfl, rfl, rfl⟩

/-- C8 at the sample port in an environment where every command fails: the one
setup command issued is followed by the teardown, which deletes the derived
bridge. -/
theorem setup_teardown_same_names_witness :
    ∃ bridge qvb qvo tap vif : GoString,
      buildBridgeName samplePlugin samplePort.ID = some bridge ∧
      buildVethName samplePlugin samplePort.ID = some (qvb, qvo) ∧
      buildTapName samplePlugin samplePort.ID = some (tap, vif) ∧
      (∀ x, [goStr "brctl", goStr "delbr", x] ∈
        (SetupOVSInterface samplePlugin (goStr "pod") (goStr "cid") samplePort envAllFail []).2 →
          x = bridge) ∧
      (DestroyInterface samplePlugin (goStr "pod") (goStr "cid") samplePort envAllFail []).2.get? 4 =
        some [goStr "brctl", goStr "delbr", bridge] := by
  obtain ⟨bridge, qvb, qvo, tap, vif, h1, h2, h3, hA, _, _, _, _, _, _, _, _, _, h4, _⟩ :=
    setup_teardown_same_names samplePlugin (goStr "pod") (goStr "cid") samplePort
      (goStr "10.0.0.2/24") (goStr "10.0.0.1") (goStr "eth0") envAllFail [] [] [] (by decide)
  exact ⟨bridge, qvb, qvo, tap, vif, h1, h2, h3,
    fun x hx => (hA _ (by simpa using hx)).2.2.1 x rfl, h4⟩

/-- C9 (teardown needs no stored state).  In a fixed environment and from the same
trace, two calls of `DestroyInterface` with the same sandbox handle whose ports
have the same identifier issue the same commands and return the same result,
whatever the MAC addresses, the workload names and the integration bridges of
the two plugins are. -/
theorem DestroyInterface_depends_on_id_only (p1 p2 : OVSPlugin) (pod1 pod2 cid : GoString)
    (port1 port2 : Port) (env : Env) (tr : List Cmd) (h : port1.ID = port2.ID) :
    DestroyInterface p1 pod1 cid port1 env tr = DestroyInterface p2 pod2 cid port2 env tr := by
  simp only [DestroyInterface, destroyOVSInterface, destroySandboxInterface, buildVethName,
    buildBridgeName, buildTapName, h]

/-- C9 at two ports with one identifier, two MAC addresses, two workload names
and two integration bridges. -/
theorem DestroyInterface_depends_on_id_only_witness :
    samplePort.ID = samplePortOtherMac.ID ∧
    samplePort.MACAddress ≠ samplePortOtherMac.MACAddress ∧
    samplePlugin.IntegrationBridge ≠ samplePluginOther.IntegrationBridge ∧
    DestroyInterface samplePlugin (goStr "pod-a") (goStr "cid") samplePort envOK [] =
      DestroyInterface samplePluginOther (goStr "pod-b") (goStr "cid") samplePortOtherMac envOK [] :=
  ⟨rfl, by decide, by decide,
    DestroyInterface_depends_on_id_only samplePlugin samplePluginOther (goStr "pod-a")
      (goStr "pod-b") (goStr "cid") samplePort samplePortOtherMac envOK [] rfl⟩

/-- C10 (Phase B command order).  For a port whose identifier has at least 11
bytes, when the twelve commands up to bringing the tap up succeed and the
inspection of the sandbox process prints the process id `N` between apostrophes,
`SetupSandboxInterface` issues exactly the thirteen commands below, in this
order, and returns a descriptor whose name is the requested interface name,
with a nil error (the error of the thirteenth command is only logged). -/
theorem SetupSandboxInterface_command_order (p : OVSPlugin) (pod cid : GoString) (port : Port)
    (ipcidr gateway ifName N : GoString) (rest : List GoString) (env : Env) (tr : List Cmd)
    (hid : 11 ≤ port.ID.length)
    (hok : okBefore env tr (phaseBCmds port cid ipcidr gateway ifName N) 12)
    (hpid : (env (tr ++ (phaseBCmds port cid ipcidr gateway ifName N).take 3)
      (inspectCmd cid)).out = (apostrophe :: (N ++ [apostrophe])) :: rest)
    (hN : N.head? ≠ some apostrophe ∧ N.getLast? ≠ some apostrophe) :
    SetupSandboxInterface p pod cid port ipcidr gateway ifName env tr =
      (Outcome.ret (some { Name := ifName }, none),
        tr ++
          [ [goStr "ip", goStr "link", goStr "add", tapName port.ID, goStr "type", goStr "veth",
              goStr "peer", goStr "name", vifName port.ID],
            [goStr "brctl", goStr "addif", qbrName port.ID, tapName port.ID],
            [goStr "ip", goStr "link", goStr "set", goStr "dev", vifName port.ID,
              goStr "address", port.MACAddress],
            [goStr "docker", goStr "inspect", goStr "-f",
              goStr "\x27\x7b\x7b.State.Pid\x7d\x7d\x27", cid],
            [goStr "ln", goStr "-s", goStr "/proc/" ++ N ++ goStr "/ns/net",
              goStr "/var/run/netns/" ++ N],
            [goStr "ip", goStr "link", goStr "set", vifName port.ID, goStr "netns", N],
            [goStr "ip", goStr "netns", goStr "exec", N, goStr "ip", goStr "link", goStr "set",
              vifName port.ID, goStr "down"],
            [goStr "ip", goStr "netns", goStr "exec", N, goStr "ip", goStr "link", goStr "set",
              vifName port.ID, goStr "name", ifName],
            [goStr "ip", goStr "netns", goStr "exec", N, goStr "ip", goStr "link", goStr "set",
              ifName, goStr "up"],
            [goStr "ip", goStr "netns", goStr "exec", N, goStr "ip", goStr "addr", goStr "add",
              goStr "dev", ifName, ipcidr],
            [goStr "ip", goStr "netns", goStr "exec", N, goStr "ip", goStr "route", goStr "add",
              goStr "default", goStr "via", gateway],
            [goStr "ip", goStr "link", goStr "set", goStr "dev", tapName port.ID, goStr "up"],
            [goStr "rm", goStr "-f", goStr "/var/run/netns/" ++ N] ]) ∧
    buildTapName p port.ID = some (tapName port.ID, vifName port.ID) ∧
    buildBridgeName p port.ID = some (qbrName port.ID) :=
  ⟨SetupSandboxInterface_ok p pod cid port ipcidr gateway ifName N env tr hid hok
    ⟨_, rest, hpid, (Trim_quoted N apostrophe hN.1 hN.2).symm⟩,
    buildTapName_eq p _ hid, buildBridgeName_eq p _ hid⟩

/-- C10 at the sample port, the inspection printing the quoted process id 4242. -/
theorem SetupSandboxInterface_command_order_witness :
    (SetupSandboxInterface samplePlugin (goStr "pod") (goStr "cid") samplePort
      (goStr "10.0.0.2/24") (goStr "10.0.0.1") (goStr "eth0") envOK []).1 =
        Outcome.ret (some { Name := goStr "eth0" }, none) ∧
    (SetupSandboxInterface samplePlugin (goStr "pod") (goStr "cid") samplePort
      (goStr "10.0.0.2/24") (goStr "10.0.0.1") (goStr "eth0") envOK []).2.get? 5 =
        some [goStr "ip", goStr "link", goStr "set", goStr "vif0123456789a", goStr "netns",
          goStr "4242"] :=
  have h := (SetupSandboxInterface_command_order samplePlugin (goStr "pod") (goStr "cid")
    samplePort (goStr "10.0.0.2/24") (goStr "10.0.0.1") (goStr "eth0") (goStr "4242")
    [goStr "    link/ether fa:16:3e:aa:bb:cc brd ff:ff:ff:ff:ff:ff"] envOK []
    (by decide) (by decide) (by decide) (by decide)).1
  ⟨congrArg Prod.fst h, (congrArg (fun r => r.2.get? 5) h).trans (by decide)⟩

/-- C11 (Phase A fabric metadata and MAC read-back).  Let the plugin be initialised
by `Init` with an integration bridge and let the port identifier have at least
11 bytes.  When every Phase A command succeeds, the seventh command issued adds
the qvo end to that integration bridge and records attached-mac = the MAC of
the port, iface-id = its identifier, vm-id = the workload name and
iface-status = active; and when moreover the second output line of
`ip link show` is four spaces, `link/ether`, a space, a MAC address of 17 bytes
and further text, `SetupOVSInterface` returns the descriptor whose name is the
derived bridge name and whose MAC is exactly that address, with a nil error. -/
theorem SetupOVSInterface_fabric_metadata (p0 : OVSPlugin)
    (integrationBridge pod cid : GoString) (port : Port) (env : Env) (tr : List Cmd)
    (hid : 11 ≤ port.ID.length)
    (hok : okBefore env tr (phaseACmds (Init p0 integrationBridge).1 pod port) 8) :
    (Init p0 integrationBridge).2 = none ∧
    buildVethName (Init p0 integrationBridge).1 port.ID = some (qvbName port.ID, qvoName port.ID) ∧
    buildBridgeName (Init p0 integrationBridge).1 port.ID = some (qbrName port.ID) ∧
    (SetupOVSInterface (Init p0 integrationBridge).1 pod cid port env tr).2.get? (tr.length + 6) =
      some [goStr "ovs-vsctl", goStr "-vconsole:off", goStr "--", goStr "--if-exists",
        goStr "del-port", qvoName port.ID, goStr "--", goStr "add-port", integrationBridge,
        qvoName port.ID, goStr "--", goStr "set", goStr "Interface", qvoName port.ID,
        goStr "external_ids:attached-mac=" ++ port.MACAddress,
        goStr "external_ids:iface-id=" ++ port.ID,
        goStr "external_ids:vm-id=" ++ pod,
        goStr "external_ids:iface-status=active"] ∧
    ∀ mac more : GoString, mac.length = 17 →
      (env (tr ++ (phaseACmds (Init p0 integrationBridge).1 pod port).take 7)
        [goStr "ip", goStr "link", goStr "show", qbrName port.ID]).out.get? 1 =
          some (goStr "    link/ether " ++ mac ++ more) →
      SetupOVSInterface (Init p0 integrationBridge).1 pod cid port env tr =
        (Outcome.ret (some { Name := qbrName port.ID, Mac := mac }, none),
          tr ++ phaseACmds (Init p0 integrationBridge).1 pod port) := by
  refine ⟨rfl, buildVethName_eq _ _ hid, buildBridgeName_eq _ _ hid, ?_, ?_⟩
  · rw [(SetupOVSInterface_trace_ok _ pod cid port env tr hid hok).1]
    simp only [List.get?_eq_getElem?]
    rw [List.getElem?_append_right (Nat.le_add_right _ _), Nat.add_sub_cancel_left]
    rfl
  · intro mac more hmac hline
    have hm := mac_of_link_line mac more hmac
    have h := SetupOVSInterface_ok (Init p0 integrationBridge).1 pod cid port env tr _ hid hok
      hline hm.2
    rw [hm.1] at h
    exact h

/-- C11 at the sample port: the plugin is initialised with `br-int` and
`ip link show` prints the MAC `fa:16:3e:aa:bb:cc`. -/
theorem SetupOVSInterface_fabric_metadata_witness :
    (SetupOVSInterface (Init samplePluginOther (goStr "br-int")).1 (goStr "pod") (goStr "cid")
      samplePort envOK []).1 =
      Outcome.ret (some { Name := goStr "qbr0123456789a", Mac := goStr "fa:16:3e:aa:bb:cc" }, none) :=
  (congrArg Prod.fst
    ((SetupOVSInterface_fabric_metadata samplePluginOther (goStr "br-int") (goStr "pod")
      (goStr "cid") samplePort envOK [] (by decide) (by decide)).2.2.2.2
        (goStr "fa:16:3e:aa:bb:cc") (goStr " brd ff:ff:ff:ff:ff:ff") (by decide) (by decide))).trans
    (by decide)

/-- C12 (per-port state machine of `SetupInterface`).  For a port whose identifier
has at least 11 bytes and every environment:
(a) either `SetupInterface` issues nothing beyond what Phase A issues, or Phase A
    has issued its eight commands, all of them, and Phase B starts after them;
(b) if Phase A returns an error, `SetupInterface` returns that error with both
    descriptors nil and issues no command after Phase A; the creation of the
    tap/vif pair is not among the commands issued;
(c) when all commands of both phases succeed with well-formed output, it returns
    the fabric-side descriptor (name = derived bridge name), then the
    sandbox-side descriptor (name = requested interface name), and a nil error,
    having issued Phase A and then Phase B. -/
theorem SetupInterface_state_machine (p : OVSPlugin) (pod cid : GoString) (port : Port)
    (ipcidr gateway ifName : GoString) (env : Env) (tr : List Cmd)
    (hid : 11 ≤ port.ID.length) :
    ((SetupInterface p pod cid port ipcidr gateway ifName env tr).2 =
        (SetupOVSInterface p pod cid port env tr).2 ∨
      ((SetupOVSInterface p pod cid port env tr).2 = tr ++ phaseACmds p pod port ∧
        (SetupInterface p pod cid port ipcidr gateway ifName env tr).2 =
          (SetupSandboxInterface p pod cid port ipcidr gateway ifName env
            (tr ++ phaseACmds p pod port)).2)) ∧
    (∀ (x : Option Interface) (e : GoError) (tr1 : List Cmd),
      SetupOVSInterface p pod cid port env tr = (Outcome.ret (x, some e), tr1) →
        SetupInterface p pod cid port ipcidr gateway ifName env tr =
          (Outcome.ret (none, none, some e), tr1) ∧
        [goStr "ip", goStr "link", goStr "add", tapName port.ID, goStr "type", goStr "veth",
          goStr "peer", goStr "name", vifName port.ID] ∉ tr1.drop tr.length) ∧
    (∀ (line netns : GoString),
      okBefore env tr (phaseACmds p pod port) 8 →
      (env (tr ++ (phaseACmds p pod port).take 7)
        [goStr "ip", goStr "link", goStr "show", qbrName port.ID]).out.get? 1 = some line →
      32 ≤ line.length →
      okBefore env (tr ++ phaseACmds p pod port)
        (phaseBCmds port cid ipcidr gateway ifName netns) 12 →
      (∃ first rest,
        (env (tr ++ phaseACmds p pod port ++
          (phaseBCmds port cid ipcidr gateway ifName netns).take 3) (inspectCmd cid)).out
          = first :: rest ∧ netns = Trim first apostrophe) →
      SetupInterface p pod cid port ipcidr gateway ifName env tr =
        (Outcome.ret (some { Name := qbrName port.ID, Mac := (line.take 32).drop 15 },
            some { Name := ifName }, none),
          tr ++ phaseACmds p pod port ++ phaseBCmds port cid ipcidr gateway ifName netns)) := by
  have hff := first_failure env tr (phaseACmds p pod port) 8
  refine ⟨?_, ?_, ?_⟩
  · rcases hff with hok | ⟨k, hk, hok, e, he⟩
    · obtain ⟨htr, hout | ⟨br, hout⟩⟩ := SetupOVSInterface_trace_ok p pod cid port env tr hid hok
      · left
        cases hA : SetupOVSInterface p pod cid port env tr with
        | mk o t =>
          rw [hA] at hout
          simp only at hout
          subst hout
          simp only [SetupInterface, Exec.run_bind, hA]
      · right
        refine ⟨htr, ?_⟩
        cases hA : SetupOVSInterface p pod cid port env tr with
        | mk o t =>
          rw [hA] at hout htr
          simp only at hout htr
          subst hout htr
          simp only [SetupInterface, Exec.run_bind, hA, Exec.run_pure]
          cases hB : SetupSandboxInterface p pod cid port ipcidr gateway ifName env
              (tr ++ phaseACmds p pod port) with
          | mk oB tB =>
            cases oB with
            | panic => rfl
            | ret r =>
              obtain ⟨con, err⟩ := r
              cases err <;> rfl
    · left
      have hA := SetupOVSInterface_fail p pod cid port env tr e k hid hk hok he
      simp only [SetupInterface, Exec.run_bind, hA, Exec.run_pure]
  · intro x e tr1 hA
    refine ⟨by simp only [SetupInterface, Exec.run_bind, hA, Exec.run_pure], ?_⟩
    rcases hff with hok | ⟨k, hk, hok, e2, he⟩
    · obtain ⟨_, hout | ⟨br, hout⟩⟩ := SetupOVSInterface_trace_ok p pod cid port env tr hid hok
      · rw [hA] at hout; exact absurd hout (by simp)
      · rw [hA] at hout; exact absurd hout (by simp)
    · have hA2 := SetupOVSInterface_fail p pod cid port env tr e2 k hid hk hok he
      rw [hA] at hA2
      have htr := (Prod.mk.inj hA2).2
      rw [htr, List.append_assoc, List.drop_left]
      intro hmem
      rcases List.mem_append.mp hmem with h | h
      · exact tapCreate_not_in_phaseA p pod port (List.mem_of_mem_take h)
      · exact tapCreate_not_in_teardown port cid _ h
  · intro line netns hokA hline hlen hokB hpid
    have hA := SetupOVSInterface_ok p pod cid port env tr line hid hokA hline hlen
    have hB := SetupSandboxInterface_ok p pod cid port ipcidr gateway ifName netns env
      (tr ++ phaseACmds p pod port) hid hokB hpid
    simp only [SetupInterface, Exec.run_bind, hA, hB, Exec.run_pure]

/-- C12 at the sample port in an environment where every command succeeds. -/
theorem SetupInterface_state_machine_witness :
    (SetupInterface samplePlugin (goStr "pod") (goStr "cid") samplePort (goStr "10.0.0.2/24")
      (goStr "10.0.0.1") (goStr "eth0") envOK []).1 =
      Outcome.ret (some { Name := goStr "qbr0123456789a", Mac := goStr "fa:16:3e:aa:bb:cc" },
        some { Name := goStr "eth0" }, none) :=
  (congrArg Prod.fst
    ((SetupInterface_state_machine samplePlugin (goStr "pod") (goStr "cid") samplePort
      (goStr "10.0.0.2/24") (goStr "10.0.0.1") (goStr "eth0") envOK [] (by decide)).2.2
        (goStr "    link/ether fa:16:3e:aa:bb:cc brd ff:ff:ff:ff:ff:ff") (goStr "4242")
        (by decide) (by decide) (by decide) (by decide)
        ⟨goStr "\x274242\x27", [goStr "    link/ether fa:16:3e:aa:bb:cc brd ff:ff:ff:ff:ff:ff"],
          by decide, by decide⟩)).trans (by decide)

/-- C13 (the claim fails on the empty store).  `kube-system` is reserved, and
processing it as the first event on the empty store does change the Tenant and
Network sets: it creates the bootstrap pair.  Moreover, after the empty sequence
of events the store holds no Tenant at all. -/
theorem onAdd_reserved_first_creates_bootstrap :
    IsSystemNamespace (goStr "kube-system") = true ∧
    emptyStore.Tenants = [] ∧ emptyStore.Networks = [] ∧
    (onAdd testController (goStr "kube-system") emptyStore).Tenants =
      [systemTenant testController] ∧
    (onAdd testController (goStr "kube-system") emptyStore).Networks =
      [systemNetwork testController] ∧
    (onAdd testController (goStr "kube-system") emptyStore).Tenants ≠ emptyStore.Tenants ∧
    (onAddAll testController [] emptyStore).Tenants = [] := by
  decide

/-- C13 (amended).  Starting from the empty store, after `onAdd` has been applied
to a non-empty sequence of namespaces: the store holds exactly one Tenant, the
system tenant; looking a network up by name yields the system network for
`default`, the network of `N` with the configured CIDR and gateway for exactly
each processed `N` that is not reserved, and nothing otherwise, no name being
stored twice; processing a reserved namespace next leaves the Tenant and
Network lists unchanged, whereas as the first event on the empty store it
creates the bootstrap pair and nothing else; and for every processed namespace
the bindings `N-rolebinding` and `N-rolebinding-sa` exist in namespace `N` and
equal the generated ones. -/
theorem onAdd_reconciles (c : Controller) (nss : List GoString) (hne : nss ≠ []) :
    (onAddAll c nss emptyStore).Tenants = [systemTenant c] ∧
    (∀ n, (onAddAll c nss emptyStore).getNetwork n =
      if n = SystemNetwork then some (systemNetwork c)
      else if n ∈ nss ∧ IsSystemNamespace n = false then some (newNetworkForTenant c n)
      else none) ∧
    ((onAddAll c nss emptyStore).Networks.map (fun n => n.Name)).Nodup ∧
    (∀ r, IsSystemNamespace r = true →
      (onAdd c r (onAddAll c nss emptyStore)).Tenants = (onAddAll c nss emptyStore).Tenants ∧
      (onAdd c r (onAddAll c nss emptyStore)).Networks = (onAddAll c nss emptyStore).Networks) ∧
    (∀ r, IsSystemNamespace r = true →
      (onAdd c r emptyStore).Tenants = [systemTenant c] ∧
      (onAdd c r emptyStore).Networks = [systemNetwork c]) ∧
    (∀ n, n ∈ nss →
      (onAddAll c nss emptyStore).getRoleBinding n (n ++ goStr "-rolebinding") =
        some (GenerateRoleBinding n n) ∧
      (onAddAll c nss emptyStore).getRoleBinding n (n ++ goStr "-rolebinding-sa") =
        some (GenerateServiceAccountRoleBinding n n)) := by
  obtain ⟨_, h0, hfirst⟩ := bootstrap_of_empty c
  have hS : Reconciled c (onAddAll c nss emptyStore) nss := by
    cases nss with
    | nil => exact absurd rfl hne
    | cons n rest =>
      have h1 : onAddAll c (n :: rest) emptyStore =
          onAddAll c rest (onAdd c n (initSystemReservedTenantNetwork c emptyStore).2) := by
        simp only [onAddAll, List.foldl_cons, hfirst n]
      rw [h1]
      have := Reconciled.all rest (h0.step n)
      simpa using this
  have hb := hS.hasBootstrapPair
  obtain ⟨_, _, hT, hN, hnd, hrb⟩ := hS
  refine ⟨hT, hN, hnd, ?_, ?_, hrb⟩
  · intro r hr
    rw [onAdd_of_bootstrapped c r _ hb, if_pos hr]
    exact ⟨rfl, rfl⟩
  · intro r hr
    rw [hfirst r, onAdd_of_bootstrapped c r _ h0.hasBootstrapPair, if_pos hr]
    exact ⟨rfl, rfl⟩

/-- C13 (amended) on the sequence of `TestOnAdd`: `default`, `kube-system`,
`kube-public`, `test`. -/
theorem onAdd_reconciles_witness :
    (onAddAll testController
      [goStr "default", goStr "kube-system", goStr "kube-public", goStr "test"]
      emptyStore).Tenants = [systemTenant testController] ∧
    (onAddAll testController
      [goStr "default", goStr "kube-system", goStr "kube-public", goStr "test"]
      emptyStore).getNetwork (goStr "test") =
        some (newNetworkForTenant testController (goStr "test")) ∧
    (onAddAll testController
      [goStr "default", goStr "kube-system", goStr "kube-public", goStr "test"]
      emptyStore).getNetwork (goStr "kube-system") = none :=
  have h := onAdd_reconciles testController
    [goStr "default", goStr "kube-system", goStr "kube-public", goStr "test"] (by decide)
  ⟨h.1, (h.2.1 (goStr "test")).trans (by decide), (h.2.1 (goStr "kube-system")).trans (by decide)⟩

/-- C14 (error mapping of `createNetworkForTenant`).  For every namespace and every
store, `createNetworkForTenant` issues exactly one create call, for the network
of the namespace, and leaves the store as that call leaves it; it returns nil
when the store answers ok or already-exists, and the error of the store,
unmodified, when the store answers with any other error; an injected
`AddNetwork` error is such an error and leaves the networks untouched, and
with nothing injected the call succeeds and the network is present. -/
theorem createNetworkForTenant_error_mapping (c : Controller) (N : GoString) (s : Store) :
    (createNetworkForTenant c N s).2.Calls =
      s.Calls ++ [StoreCall.addNetwork (newNetworkForTenant c N)] ∧
    (createNetworkForTenant c N s).2 = (s.AddNetwork (newNetworkForTenant c N)).2 ∧
    ((s.AddNetwork (newNetworkForTenant c N)).1 = StoreResult.ok →
      (createNetworkForTenant c N s).1 = none) ∧
    ((s.AddNetwork (newNetworkForTenant c N)).1 = StoreResult.alreadyExists →
      (createNetworkForTenant c N s).1 = none) ∧
    (∀ e, (s.AddNetwork (newNetworkForTenant c N)).1 = StoreResult.failed e →
      (createNetworkForTenant c N s).1 = some e) ∧
    (∀ e, s.ErrAddNetwork = some e →
      (createNetworkForTenant c N s).1 = some e ∧
      (createNetworkForTenant c N s).2.Networks = s.Networks) ∧
    (s.ErrAddNetwork = none →
      (createNetworkForTenant c N s).1 = none ∧
      ((createNetworkForTenant c N s).2.getNetwork N).isSome = true) := by
  refine ⟨?_, rfl, ?_, ?_, ?_, ?_, ?_⟩
  · unfold createNetworkForTenant Store.AddNetwork
    cases s.ErrAddNetwork with
    | some e => rfl
    | none =>
      simp only
      split_ifs <;> rfl
  · intro h; simp only [createNetworkForTenant, h]; rfl
  · intro h; simp only [createNetworkForTenant, h]; rfl
  · intro e h; simp only [createNetworkForTenant, h]; rfl
  · intro e h
    constructor <;> simp [createNetworkForTenant, Store.AddNetwork, h, StoreResult.toError]
  · intro h
    unfold createNetworkForTenant Store.AddNetwork
    simp only [h]
    split_ifs with hp
    · exact ⟨rfl, hp⟩
    · refine ⟨rfl, ?_⟩
      simp [Store.getNetwork, newNetworkForTenant]

/-- C14 on the two cases of `TestCreateNetworkForTenant`: with the injected error
the call returns that error and stores nothing; on a fresh store it returns nil
and stores the network of `test`; both cases pass the check of the test. -/
theorem createNetworkForTenant_error_mapping_witness :
    (createNetworkForTenant testController (goStr "test")
      (emptyStore.InjectAddNetworkError errFailedCreateNetwork)).1 =
        some errFailedCreateNetwork ∧
    (createNetworkForTenant testController (goStr "test")
      (emptyStore.InjectAddNetworkError errFailedCreateNetwork)).2.Networks = [] ∧
    testCasePasses false (createNetworkForTenant testController (goStr "test")
      (emptyStore.InjectAddNetworkError errFailedCreateNetwork)).1 = true ∧
    (createNetworkForTenant testController (goStr "test") emptyStore).1 = none ∧
    testCasePasses true (createNetworkForTenant testController (goStr "test") emptyStore).1
      = true ∧
    (createNetworkForTenant testController (goStr "test") emptyStore).2.Networks =
      [newNetworkForTenant testController (goStr "test")] :=
  have hinj := (createNetworkForTenant_error_mapping testController (goStr "test")
    (emptyStore.InjectAddNetworkError errFailedCreateNetwork)).2.2.2.2.2.1
      errFailedCreateNetwork rfl
  have hok := (createNetworkForTenant_error_mapping testController (goStr "test")
    emptyStore).2.2.2.2.2.2 rfl
  ⟨hinj.1, hinj.2, by rw [hinj.1]; rfl, hok.1, by rw [hok.1]; rfl, by decide⟩

end Stackube
